import Mathlib

/-!
# lwm: client registry, event dispatcher, pointer gestures, key bindings and picker menu

A shallow embedding of the window-management engine of `src/lwm.c`.

* X11 identifiers (`Window`, `Atom`) are natural numbers; `0` is `None`.
* C `int` values that carry X11 geometry are mathematical integers: they are
  16-bit protocol quantities held in 32-bit variables, so the arithmetic of the
  source never leaves the `int` range.  Division is C division (`Int.tdiv`).
* The global array `clients[MAX_CLIENTS]` is a total map from slot index to
  `ClientState`, together with `client_count`; slots at or after `client_count`
  keep whatever was last stored in them, exactly as in the source.
* `for` loops over the array are index recursions with an explicit trip count.
-/

namespace Lwm

/-! ## Constants and data model -/

abbrev Window := Nat
abbrev Atom := Nat

def TITLE_HEIGHT : Int := 26
def BAR_HEIGHT : Int := 26
def MIN_SIZE : Int := 60
def MAX_CLIENTS : Nat := 256
def DEFAULT_WINDOW_WIDTH : Int := 800
def DEFAULT_WINDOW_HEIGHT : Int := 500

def Button1 : Nat := 1
def Button3 : Nat := 3

/-- The fields of Xlib's `XWindowAttributes` that the source reads. -/
structure XWindowAttributes where
  x : Int
  y : Int
  width : Int
  height : Int
  override_redirect : Int
  map_state : Int
deriving DecidableEq, Repr

/-- The struct `ClientState` of the source. -/
structure ClientState where
  frame : Window
  client : Window
  is_fullscreen : Int
  old_attr : XWindowAttributes
deriving DecidableEq, Repr

/-- A zero-filled `XWindowAttributes`, as in a zero-initialised global. -/
def XWindowAttributes.zero : XWindowAttributes :=
  { x := 0, y := 0, width := 0, height := 0, override_redirect := 0, map_state := 0 }

/-- A zero-filled `ClientState` slot. -/
def ClientState.zero : ClientState :=
  { frame := 0, client := 0, is_fullscreen := 0, old_attr := XWindowAttributes.zero }

/-- The globals `clients[MAX_CLIENTS]` and `client_count`. -/
structure Registry where
  clients : Nat → ClientState
  client_count : Nat

/-- The registry at program start: zero-initialised globals. -/
def Registry.empty : Registry :=
  { clients := fun _ => ClientState.zero, client_count := 0 }

/-- Assignment `clients[i] = v`. -/
def set_slot (clients : Nat → ClientState) (i : Nat) (v : ClientState) : Nat → ClientState :=
  fun j => if j = i then v else clients j

/-- The slots `clients[i], ..., clients[i + n - 1]` as a list. -/
def slots (clients : Nat → ClientState) (i n : Nat) : List ClientState :=
  (List.range' i n).map clients

/-- The live entries `clients[0 .. client_count - 1]`, in storage order. -/
def Registry.entries (r : Registry) : List ClientState :=
  slots r.clients 0 r.client_count

/-- The search loop shared by the registry functions:
`for (i = start; i < start + n; i++) if (p(clients[i])) { idx = i; break; }`,
with `none` for the source's `idx == -1` (or for falling out of the loop). -/
def first_match (p : ClientState → Bool) (clients : Nat → ClientState) : Nat → Nat → Option Nat
  | _, 0 => none
  | i, n + 1 => if p (clients i) then some i else first_match p clients (i + 1) n

/-! ## Client registry (`add_client`, `remove_client`, `get_frame`, ...) -/

/-- Source `add_client` (lines 296-303): writes `client`, `frame` and
`is_fullscreen` of slot `client_count` (its `old_attr` is left as it was). -/
def add_client (r : Registry) (client frame : Window) : Registry :=
  if r.client_count < MAX_CLIENTS then
    { clients := set_slot r.clients r.client_count
        { r.clients r.client_count with client := client, frame := frame, is_fullscreen := 0 },
      client_count := r.client_count + 1 }
  else r

/-- The compaction loop of `remove_client`:
`for (i = idx; i < idx + n; i++) clients[i] = clients[i + 1];`. -/
def shift_down (clients : Nat → ClientState) : Nat → Nat → (Nat → ClientState)
  | _, 0 => clients
  | i, n + 1 => shift_down (set_slot clients i (clients (i + 1))) (i + 1) n

/-- Source `remove_client` (lines 308-324). -/
def remove_client (r : Registry) (client : Window) : Registry :=
  match first_match (fun e => e.client == client) r.clients 0 r.client_count with
  | some idx =>
    { clients := shift_down r.clients idx (r.client_count - 1 - idx),
      client_count := r.client_count - 1 }
  | none => r

/-- Source `get_frame` (lines 329-336). -/
def get_frame (r : Registry) (client : Window) : Window :=
  match first_match (fun e => e.client == client) r.clients 0 r.client_count with
  | some i => (r.clients i).frame
  | none => 0

/-- Source `find_frame_of_client` (lines 440-447). -/
def find_frame_of_client (r : Registry) (client : Window) : Window :=
  match first_match (fun e => e.client == client) r.clients 0 r.client_count with
  | some i => (r.clients i).frame
  | none => 0

/-- A register / unregister call on the registry. -/
inductive RegistryCall where
  | register (client frame : Window)
  | unregister (client : Window)
deriving DecidableEq, Repr

/-- Performs one registry call. -/
def RegistryCall.apply (r : Registry) : RegistryCall → Registry
  | .register client frame => add_client r client frame
  | .unregister client => remove_client r client

/-- Performs a sequence of registry calls, first call first. -/
def run_calls (r : Registry) : List RegistryCall → Registry
  | [] => r
  | c :: cs => run_calls (c.apply r) cs

/-- The client handles of the live entries. -/
def Registry.client_handles (r : Registry) : List Window :=
  r.entries.map (fun e => e.client)

/-! ## The display server as seen through Xlib -/

/-- The `event_mode` argument of `XAllowEvents`. -/
inductive AllowMode where
  | AsyncPointer
  | ReplayPointer
deriving DecidableEq, Repr

/-- Requests sent to the display server.  Colours, event masks, grab modes
and timestamps are left out; `XCreateSimpleWindow` also records the id it
returned. -/
inductive XCall where
  | XMapWindow (w : Window)
  | XUnmapWindow (w : Window)
  | XDestroyWindow (w : Window)
  | XRaiseWindow (w : Window)
  | XMoveWindow (w : Window) (x y : Int)
  | XResizeWindow (w : Window) (width height : Int)
  | XMoveResizeWindow (w : Window) (x y width height : Int)
  | XCreateSimpleWindow (parent : Window) (x y width height : Int) (id : Window)
  | XReparentWindow (w parent : Window) (x y : Int)
  | XSelectInput (w : Window)
  | XAddToSaveSet (w : Window)
  | XGrabButton (button modifiers : Nat) (w : Window)
  | XChangeProperty (w : Window) (property : Atom) (data : List Nat)
  | XDeleteProperty (w : Window) (property : Atom)
  | XSetInputFocus (w : Window)
  | XAllowEvents (mode : AllowMode)
  | XGrabPointer (w : Window)
  | XUngrabPointer
  | XClearArea (w : Window)
deriving DecidableEq, Repr

/-- The display server.  `attrs w` is what `XGetWindowAttributes` returns for
`w` (`none`: the call fails, the window does not exist); configure requests
are applied to it as issued.  `query_tree` and `window_type` are the replies
to `XQueryTree` (parent and children) and to the `_NET_WM_WINDOW_TYPE`
property fetch; the tree reply may depend on the requests issued so far.
`next_id` is the id the next created window receives, and `calls` the
requests issued so far, oldest first.  Only geometry is tracked in `attrs`:
map, stacking, focus and grab requests are recorded in `calls` alone. -/
structure XServer where
  attrs : Window → Option XWindowAttributes
  query_tree : List XCall → Window → Option (Window × List Window)
  window_type : Window → Option Atom
  screen_width : Int
  screen_height : Int
  next_id : Window
  calls : List XCall

/-- Appends a request to the log. -/
def XServer.issue (X : XServer) (c : XCall) : XServer :=
  { X with calls := X.calls ++ [c] }

/-- Applies a change to the attributes of `w`, when `w` exists. -/
def XServer.configure (X : XServer) (w : Window)
    (f : XWindowAttributes → XWindowAttributes) : XServer :=
  { X with attrs := fun v => if v = w then (X.attrs w).map f else X.attrs v }

def XMoveResizeWindow (X : XServer) (w : Window) (x y width height : Int) : XServer :=
  (X.configure w (fun a => { a with x := x, y := y, width := width, height := height })).issue
    (.XMoveResizeWindow w x y width height)

def XResizeWindow (X : XServer) (w : Window) (width height : Int) : XServer :=
  (X.configure w (fun a => { a with width := width, height := height })).issue
    (.XResizeWindow w width height)

def XMoveWindow (X : XServer) (w : Window) (x y : Int) : XServer :=
  (X.configure w (fun a => { a with x := x, y := y })).issue (.XMoveWindow w x y)

/-- Creates a window with the requested geometry, unmapped, and returns its id. -/
def XCreateSimpleWindow (X : XServer) (parent : Window) (x y width height : Int) :
    XServer × Window :=
  ({ X with
      attrs := fun v => if v = X.next_id then
        some { x := x, y := y, width := width, height := height,
               override_redirect := 0, map_state := 0 } else X.attrs v,
      next_id := X.next_id + 1,
      calls := X.calls ++ [.XCreateSimpleWindow parent x y width height X.next_id] },
   X.next_id)

/-- The call `XGetWindowAttributes(dpy, w, &attr)` into a local `attr` whose
previous (indeterminate) contents are `before`: a failing call leaves them. -/
def XGetWindowAttributes (X : XServer) (w : Window) (before : XWindowAttributes) :
    XWindowAttributes :=
  match X.attrs w with
  | some a => a
  | none => before

/-! ## Window-manager state -/

/-- The struct `DragState` of the source. -/
structure DragState where
  start_root_x : Int
  start_root_y : Int
  win_x : Int
  win_y : Int
  win_w : Int
  win_h : Int
  resize_x_dir : Int
  resize_y_dir : Int
deriving DecidableEq, Repr

/-- The fields of Xlib's `XButtonEvent` that the source reads. -/
structure XButtonEvent where
  window : Window
  subwindow : Window
  x : Int
  y : Int
  x_root : Int
  y_root : Int
  state : Nat
  button : Nat
deriving DecidableEq, Repr

/-- The fields of Xlib's `XClientMessageEvent` that the source reads
(`l0 .. l2` are `data.l[0] .. data.l[2]`). -/
structure XClientMessageEvent where
  window : Window
  message_type : Atom
  l0 : Nat
  l1 : Nat
  l2 : Nat
deriving DecidableEq, Repr

/-- Indices into `wmatoms`, from the source's atom enumeration. -/
def NET_WM_STATE : Nat := 2
def NET_WM_STATE_FULLSCREEN : Nat := 4
def NET_ACTIVE_WINDOW : Nat := 5
def NET_CLIENT_LIST : Nat := 6
def NET_WM_WINDOW_TYPE : Nat := 7
def NET_WM_WINDOW_TYPE_DOCK : Nat := 8
def NET_WM_WINDOW_TYPE_DIALOG : Nat := 9
def NET_WM_WINDOW_TYPE_NORMAL : Nat := 10
def NET_WM_WINDOW_TYPE_MENU : Nat := 11
def NET_WM_WINDOW_TYPE_TOOLBAR : Nat := 12
def NET_WM_WINDOW_TYPE_SPLASH : Nat := 13
def NET_WM_WINDOW_TYPE_UTILITY : Nat := 14
def NET_WM_WINDOW_TYPE_NOTIFICATION : Nat := 15

/-- The global state of the source: registry, gesture session, focus, the
windows and atoms fixed at start-up, and the display server. -/
structure WM where
  reg : Registry
  drag_state : DragState
  start_ev : XButtonEvent
  focus_window : Window
  root : Window
  bar_win : Window
  mouse_mod_mask : Nat
  wmatoms : Nat → Atom
  X : XServer

/-- Source `find_client_in_frame` (lines 414-435): the registry scan, then
the first child of `frame` from `XQueryTree`. -/
def find_client_in_frame (r : Registry) (X : XServer) (frame : Window) : Window :=
  match first_match (fun e => e.frame == frame) r.clients 0 r.client_count with
  | some i => (r.clients i).client
  | none =>
    match X.query_tree X.calls frame with
    | some (_, child :: _) => child
    | _ => 0

/-- Source `update_client_list` (lines 375-386). -/
def update_client_list (s : WM) : WM :=
  match s.X.query_tree s.X.calls s.root with
  | some (_, children) =>
    { s with X := s.X.issue (.XChangeProperty s.root (s.wmatoms NET_CLIENT_LIST) children) }
  | none => s

/-- Source `set_active_window` (lines 391-394). -/
def set_active_window (s : WM) (w : Window) : WM :=
  { s with X := s.X.issue (.XChangeProperty s.root (s.wmatoms NET_ACTIVE_WINDOW) [w]) }

/-! ## Fullscreen toggle -/

/-- The entering branch of `toggle_fullscreen` (lines 471-480), for the
entry at slot `idx` with frame `frame`.  `XGetWindowAttributes` writes the
frame's attributes into `clients[idx].old_attr`. -/
def enter_fullscreen (s : WM) (client frame : Window) (idx : Nat) : WM :=
  let e := s.reg.clients idx
  let old_attr := XGetWindowAttributes s.X frame e.old_attr
  let sw := s.X.screen_width
  let sh := s.X.screen_height
  let X1 := XMoveResizeWindow s.X frame 0 0 sw sh
  let X2 := XResizeWindow X1 client sw sh
  let X3 := X2.issue (.XRaiseWindow frame)
  let X4 := X3.issue (.XChangeProperty client (s.wmatoms NET_WM_STATE)
              [s.wmatoms NET_WM_STATE_FULLSCREEN])
  let e1 : ClientState := { e with old_attr := old_attr, is_fullscreen := 1 }
  { s with reg := { s.reg with clients := set_slot s.reg.clients idx e1 }, X := X4 }

/-- The leaving branch of `toggle_fullscreen` (lines 482-487). -/
def exit_fullscreen (s : WM) (client frame : Window) (idx : Nat) : WM :=
  let e := s.reg.clients idx
  let X1 := XMoveResizeWindow s.X frame e.old_attr.x e.old_attr.y
              e.old_attr.width e.old_attr.height
  let X2 := XResizeWindow X1 client e.old_attr.width (e.old_attr.height - TITLE_HEIGHT)
  let X3 := X2.issue (.XDeleteProperty client (s.wmatoms NET_WM_STATE))
  let e1 : ClientState := { e with is_fullscreen := 0 }
  { s with reg := { s.reg with clients := set_slot s.reg.clients idx e1 }, X := X3 }

/-- Source `toggle_fullscreen` (lines 452-489). -/
def toggle_fullscreen (s : WM) (client : Window) : WM :=
  let frame := get_frame s.reg client
  if frame = 0 then s
  else
    match first_match (fun e => e.client == client) s.reg.clients 0 s.reg.client_count with
    | none => s
    | some idx =>
      if (s.reg.clients idx).is_fullscreen = 0 then enter_fullscreen s client frame idx
      else exit_fullscreen s client frame idx

/-- The `ClientMessage` branch of the dispatcher in `main` (lines 970-987);
the status-bar redraw `update_bar` only draws and is left out. -/
def main_ClientMessage (s : WM) (ev : XClientMessageEvent) : WM :=
  if ev.message_type = s.wmatoms NET_WM_STATE then
    if ev.l1 = s.wmatoms NET_WM_STATE_FULLSCREEN ∨ ev.l2 = s.wmatoms NET_WM_STATE_FULLSCREEN then
      toggle_fullscreen s ev.window
    else s
  else if ev.message_type = s.wmatoms NET_ACTIVE_WINDOW then
    let frame := get_frame s.reg ev.window
    if frame ≠ 0 then
      let X1 := s.X.issue (.XRaiseWindow frame)
      let X2 := X1.issue (.XSetInputFocus ev.window)
      set_active_window { s with X := X2, focus_window := ev.window } ev.window
    else s
  else s

/-! ## Framing -/

/-- The window-type test of `frame_window` (lines 614-635): `should_frame`
is cleared exactly for the six listed types; an absent or unfetchable
property leaves it set. -/
def should_frame (s : WM) (client : Window) : Bool :=
  match s.X.window_type client with
  | some type =>
    !(type == s.wmatoms NET_WM_WINDOW_TYPE_DOCK ||
      type == s.wmatoms NET_WM_WINDOW_TYPE_MENU ||
      type == s.wmatoms NET_WM_WINDOW_TYPE_SPLASH ||
      type == s.wmatoms NET_WM_WINDOW_TYPE_NOTIFICATION ||
      type == s.wmatoms NET_WM_WINDOW_TYPE_UTILITY ||
      type == s.wmatoms NET_WM_WINDOW_TYPE_DIALOG)
  | none => true

/-- Source `frame_window` (lines 601-678); `dpy` is non-null once `main`
has opened the display. -/
def frame_window (s : WM) (client : Window) : WM :=
  if client = 0 then s
  else
    match s.X.attrs client with
    | none => s
    | some attrs =>
      if attrs.override_redirect ≠ 0 then s
      else if should_frame s client = false then
        let X1 := s.X.issue (.XMapWindow client)
        update_client_list { s with reg := add_client s.reg client 0, X := X1 }
      else
        let undersized : Bool := attrs.width < MIN_SIZE || attrs.height < MIN_SIZE
        let w := if undersized then DEFAULT_WINDOW_WIDTH else attrs.width
        let h := if undersized then DEFAULT_WINDOW_HEIGHT else attrs.height
        let X1 := if undersized then XResizeWindow s.X client w h else s.X
        let sw := X1.screen_width
        let sh := X1.screen_height
        let x := (sw - w).tdiv 2
        let y0 := (sh - h).tdiv 2
        let y := if y0 < BAR_HEIGHT then BAR_HEIGHT else y0
        let created := XCreateSimpleWindow X1 s.root x y w (h + TITLE_HEIGHT)
        let frame := created.2
        let X2 := created.1
        let X3 := X2.issue (.XSelectInput client)
        let X4 := X3.issue (.XSelectInput frame)
        let X5 := X4.issue (.XReparentWindow client frame 0 TITLE_HEIGHT)
        let X6 := X5.issue (.XMapWindow frame)
        let X7 := X6.issue (.XMapWindow client)
        let X8 := X7.issue (.XAddToSaveSet client)
        let X9 := X8.issue (.XGrabButton Button1 s.mouse_mod_mask client)
        let X10 := X9.issue (.XGrabButton Button3 s.mouse_mod_mask client)
        update_client_list { s with reg := add_client s.reg client frame, X := X10 }

/-! ## Pointer gestures (the interaction state machine in `main`) -/

/-- A position and size, as passed to `XMoveResizeWindow`. -/
structure Geometry where
  x : Int
  y : Int
  width : Int
  height : Int
deriving DecidableEq, Repr

/-- The frame resolved for a button press (lines 1042-1056): the parent of
the event window unless that is the root or `0`, else the event window
itself unless it is the root; `0` when `XQueryTree` fails. -/
def resolve_frame (s : WM) (ev : XButtonEvent) : Window :=
  match s.X.query_tree s.X.calls ev.window with
  | some (parent_r, _) =>
    if parent_r ≠ s.root ∧ parent_r ≠ 0 then parent_r
    else if ev.window ≠ s.root then ev.window
    else 0
  | none => 0

/-- The loop of lines 1060-1064, which sets `is_fs = 1` at every slot that
matches (no `break`): the flag after slots `i .. i + n - 1`, entered with
value `acc`. -/
def is_fs_loop (clients : Nat → ClientState) (client : Window) : Nat → Nat → Int → Int
  | _, 0, acc => acc
  | i, n + 1, acc =>
    is_fs_loop clients client (i + 1) n
      (if (clients i).client = client ∧ (clients i).is_fullscreen ≠ 0 then 1 else acc)

/-- The fullscreen guard of the button-press handler (lines 1058-1064). -/
def press_is_fs (s : WM) (ev : XButtonEvent) : Int :=
  let client := find_client_in_frame s.reg s.X (resolve_frame s ev)
  is_fs_loop s.reg.clients client 0 s.reg.client_count 0

/-- The `ButtonPress` branch of the dispatcher (lines 1041-1149).  `fa0` and
`attr0` are the indeterminate contents of the locals `fa` and `attr` before
`XGetWindowAttributes` fills them. -/
def main_ButtonPress (s : WM) (ev : XButtonEvent) (fa0 attr0 : XWindowAttributes) : WM :=
  let parent_frame := resolve_frame s ev
  let is_fs := press_is_fs s ev
  if is_fs = 0 ∧ ev.state &&& s.mouse_mod_mask ≠ 0 ∧ ev.button = Button1 then
    let X1 := s.X.issue (.XAllowEvents .AsyncPointer)
    let target := if parent_frame ≠ 0 then parent_frame else ev.subwindow
    if target ≠ 0 ∧ target ≠ s.bar_win ∧ target ≠ s.root then
      let attr := XGetWindowAttributes X1 target attr0
      let X2 := X1.issue (.XGrabPointer s.root)
      let X3 := X2.issue (.XRaiseWindow target)
      { s with
        start_ev := { ev with window := target, button := Button1 },
        drag_state := { s.drag_state with
                        start_root_x := ev.x_root, start_root_y := ev.y_root,
                        win_x := attr.x, win_y := attr.y,
                        win_w := attr.width, win_h := attr.height },
        X := X3 }
    else { s with X := X1 }
  else if is_fs = 0 ∧ ev.state &&& s.mouse_mod_mask ≠ 0 ∧ ev.button = Button3 then
    let X1 := s.X.issue (.XAllowEvents .AsyncPointer)
    let target := if parent_frame ≠ 0 then parent_frame else ev.subwindow
    if target ≠ 0 ∧ target ≠ s.bar_win ∧ target ≠ s.root then
      let attr := XGetWindowAttributes X1 target attr0
      let X2 := X1.issue (.XGrabPointer s.root)
      let X3 := X2.issue (.XRaiseWindow target)
      { s with
        start_ev := { ev with window := target, button := Button3 },
        drag_state :=
          { start_root_x := ev.x_root, start_root_y := ev.y_root,
            win_x := attr.x, win_y := attr.y,
            win_w := attr.width, win_h := attr.height,
            resize_x_dir := if ev.x_root > attr.x + attr.width.tdiv 2 then 1 else -1,
            resize_y_dir := if ev.y_root > attr.y + attr.height.tdiv 2 then 1 else -1 },
        X := X3 }
    else { s with X := X1 }
  else if is_fs = 0 ∧ ev.window ≠ s.root ∧ ev.window ≠ s.bar_win ∧
      ev.y < TITLE_HEIGHT ∧ ev.button = Button1 then
    let X1 := s.X.issue (.XAllowEvents .AsyncPointer)
    let fa := XGetWindowAttributes X1 ev.window fa0
    let btn_w := TITLE_HEIGHT
    if ev.x < btn_w then { s with X := X1.issue (.XDestroyWindow ev.window) }
    else if ev.x > fa.width - btn_w then { s with X := X1.issue (.XUnmapWindow ev.window) }
    else
      let X2 := X1.issue (.XRaiseWindow ev.window)
      let attr := XGetWindowAttributes X2 ev.window attr0
      let X3 := X2.issue (.XGrabPointer s.root)
      { s with
        drag_state := { s.drag_state with
                        start_root_x := ev.x_root, start_root_y := ev.y_root,
                        win_x := attr.x, win_y := attr.y },
        start_ev := ev,
        X := X3 }
  else
    let X1 := if parent_frame ≠ 0 ∧ parent_frame ≠ s.bar_win then
                s.X.issue (.XRaiseWindow parent_frame) else s.X
    { s with X := X1.issue (.XAllowEvents .ReplayPointer) }

/-- The geometry a `MotionNotify` applies in a resize session (lines
1152-1187), from the anchor `d` and the pointer root position. -/
def resize_geometry (d : DragState) (x_root y_root : Int) : Geometry :=
  let xdiff := x_root - d.start_root_x
  let ydiff := y_root - d.start_root_y
  let new_x := d.win_x
  let new_y := d.win_y
  let new_w := d.win_w
  let new_h := d.win_h
  let new_w1 := if d.resize_x_dir = 1 then new_w + xdiff
                else if d.resize_x_dir = -1 then new_w - xdiff else new_w
  let new_x1 := if d.resize_x_dir = 1 then new_x
                else if d.resize_x_dir = -1 then new_x + xdiff else new_x
  let new_h1 := if d.resize_y_dir = 1 then new_h + ydiff
                else if d.resize_y_dir = -1 then new_h - ydiff else new_h
  let new_y1 := if d.resize_y_dir = 1 then new_y
                else if d.resize_y_dir = -1 then new_y + ydiff else new_y
  let new_x2 := if new_w1 < MIN_SIZE then
                  (if d.resize_x_dir = -1 then d.win_x + (d.win_w - MIN_SIZE) else new_x1)
                else new_x1
  let new_w2 := if new_w1 < MIN_SIZE then MIN_SIZE else new_w1
  let new_y2 := if new_h1 < MIN_SIZE then
                  (if d.resize_y_dir = -1 then d.win_y + (d.win_h - MIN_SIZE) else new_y1)
                else new_y1
  let new_h2 := if new_h1 < MIN_SIZE then MIN_SIZE else new_h1
  { x := new_x2, y := new_y2, width := new_w2, height := new_h2 }

/-- The `MotionNotify` branch of the dispatcher (lines 1150-1198), run on
the latest queued motion event, whose pointer root position is
`(x_root, y_root)`. -/
def main_MotionNotify (s : WM) (x_root y_root : Int) : WM :=
  if s.start_ev.window = 0 then s
  else if s.start_ev.button = Button3 then
    let g := resize_geometry s.drag_state x_root y_root
    let X1 := XMoveResizeWindow s.X s.start_ev.window g.x g.y g.width g.height
    let client := find_client_in_frame s.reg X1 s.start_ev.window
    if client ≠ 0 then
      { s with X := XResizeWindow X1 client g.width (g.height - TITLE_HEIGHT) }
    else { s with X := X1 }
  else if s.start_ev.button = Button1 then
    let xdiff := x_root - s.drag_state.start_root_x
    let ydiff := y_root - s.drag_state.start_root_y
    { s with X := XMoveWindow s.X s.start_ev.window
                    (s.drag_state.win_x + xdiff) (s.drag_state.win_y + ydiff) }
  else s

/-- The motion handler run on a sequence of pointer root positions, first
position first. -/
def motion_sequence (s : WM) : List (Int × Int) → WM
  | [] => s
  | p :: ps => motion_sequence (main_MotionNotify s p.1 p.2) ps

/-- Every `register` call of the sequence names a client handle that no live
entry holds at the time of the call. -/
def registers_fresh_clients (r : Registry) : List RegistryCall → Bool
  | [] => true
  | .register client frame :: cs =>
    !(r.client_handles.contains client) && registers_fresh_clients (add_client r client frame) cs
  | .unregister client :: cs => registers_fresh_clients (remove_client r client) cs

/-! ## Window teardown and pointer release (dispatcher branches of `main`) -/

/-- The `map_state` value `IsViewable` of Xlib. -/
def IsViewable : Int := 2

/-- The `UnmapNotify` branch of the dispatcher (lines 943-954); `attr0` is
the indeterminate content of the local `attr` before the call fills it. -/
def main_UnmapNotify (s : WM) (window : Window) (attr0 : XWindowAttributes) : WM :=
  let frame := get_frame s.reg window
  if frame ≠ 0 then
    let attr := XGetWindowAttributes s.X frame attr0
    if attr.map_state = IsViewable then
      let X1 := s.X.issue (.XDestroyWindow frame)
      update_client_list { s with reg := remove_client s.reg window, X := X1 }
    else s
  else s

/-- The `DestroyNotify` branch of the dispatcher (lines 955-969): teardown
of a client that has a frame, else the scan for an entry whose frame is the
destroyed window. -/
def main_DestroyNotify (s : WM) (window : Window) : WM :=
  let frame := get_frame s.reg window
  if frame ≠ 0 then
    let X1 := s.X.issue (.XDestroyWindow frame)
    update_client_list { s with reg := remove_client s.reg window, X := X1 }
  else
    match first_match (fun e => e.frame == window) s.reg.clients 0 s.reg.client_count with
    | some i => { s with reg := remove_client s.reg (s.reg.clients i).client }
    | none => s

/-- The `ButtonRelease` branch of the dispatcher (lines 1199-1204). -/
def main_ButtonRelease (s : WM) : WM :=
  if s.start_ev.window ≠ 0 then
    { s with X := s.X.issue .XUngrabPointer, start_ev := { s.start_ev with window := 0 } }
  else s

/-- The `EnterNotify` branch of the dispatcher (lines 1018-1028), for a
crossing event on `window`; `update_bar` only draws and is left out. -/
def main_EnterNotify (s : WM) (window : Window) : WM :=
  if window ≠ s.root ∧ window ≠ s.bar_win then
    let client := find_client_in_frame s.reg s.X window
    if client ≠ 0 then
      let X1 := s.X.issue (.XSetInputFocus client)
      set_active_window { s with focus_window := client, X := X1 } client
    else s
  else s

/-- Source `cycle_windows` (lines 846-876): the target is the first child of
the root that is not the status bar; `update_bar` only draws and is left out. -/
def cycle_windows (s : WM) : WM :=
  match s.X.query_tree s.X.calls s.root with
  | none => s
  | some (_, children) =>
    match children.find? (fun w => w != s.bar_win) with
    | none => s
    | some target =>
      let X1 := s.X.issue (.XMapWindow target)
      let X2 := X1.issue (.XRaiseWindow target)
      let X3 := X2.issue (.XRaiseWindow s.bar_win)
      let client := find_client_in_frame s.reg X3 target
      let focus := if client ≠ 0 then client else target
      { s with X := X3.issue (.XSetInputFocus focus), focus_window := focus }

/-! ## Key bindings (the `KeyPress` branch of `main`) -/

/-- Modifier masks and key symbols of the X11 protocol headers. -/
def ShiftMask : Nat := 1
def LockMask : Nat := 2
def ControlMask : Nat := 4
def Mod1Mask : Nat := 8
def Mod2Mask : Nat := 16
def Mod4Mask : Nat := 64
def XK_Return : Nat := 0xff0d
def XK_Escape : Nat := 0xff1b
def XK_q : Nat := 0x71

/-- The struct `KeyBind` of the source. -/
structure KeyBind where
  mod : Nat
  key : Nat
  command : String
deriving DecidableEq, Repr

/-- A key press as the dispatcher reads it: `keysym` is the result of
`XLookupKeysym(&ev.xkey, 0)` and `state` is `ev.xkey.state`. -/
structure XKeyEvent where
  keysym : Nat
  state : Nat
deriving DecidableEq, Repr

/-- The test `strcasecmp(a, b) == 0`. -/
def strcasecmp_eq (a b : String) : Bool :=
  a.toList.map Char.toLower == b.toList.map Char.toLower

/-- What the dispatcher does for a matching binding (lines 994-1014). -/
inductive KeyCommand where
  | quit
  | menu
  | cycle
  | unhide
  | close
  | spawn (command : String)
deriving DecidableEq, Repr

/-- The chain of `strcasecmp` tests on a binding's command (lines 994-1014). -/
def key_command (command : String) : KeyCommand :=
  if strcasecmp_eq command "quit" then .quit
  else if strcasecmp_eq command "menu" then .menu
  else if strcasecmp_eq command "cycle" then .cycle
  else if strcasecmp_eq command "unhide" then .unhide
  else if strcasecmp_eq command "close" then .close
  else .spawn command

/-- The binding loop of lines 992-1016 from index `i` on, over the bindings
not yet visited: the bindings whose command is dispatched, in order, each with
its index.  `quit` calls `exit(0)`, so the loop ends there. -/
def main_KeyPress_loop (ks st : Nat) : Nat → List KeyBind → List (Nat × KeyCommand)
  | _, [] => []
  | i, b :: bs =>
    if ks = b.key ∧ st = b.mod then
      if key_command b.command = .quit then [(i, .quit)]
      else (i, key_command b.command) :: main_KeyPress_loop ks st (i + 1) bs
    else main_KeyPress_loop ks st (i + 1) bs

/-- The `KeyPress` branch of the dispatcher (lines 988-1017) on the
configured bindings `binds[0 .. bind_count - 1]`. -/
def main_KeyPress (binds : List KeyBind) (ev : XKeyEvent) : List (Nat × KeyCommand) :=
  let ks := ev.keysym
  let st := ev.state &&& (Mod1Mask ||| Mod4Mask ||| ShiftMask ||| ControlMask)
  main_KeyPress_loop ks st 0 binds

/-! ## The picker menu (event loop of `show_hidden_menu`) -/

def MENU_ITEM_H : Int := 30

/-- The struct `HiddenWindow` of the source. -/
structure HiddenWindow where
  frame : Window
  name : String
deriving DecidableEq, Repr

/-- The events the menu loop tells apart; `KeyPress` carries the result of
`XLookupKeysym(&ev.xkey, 0)` and `MotionNotify` the pointer `y`. -/
inductive MenuEvent where
  | Expose
  | MotionNotify (y : Int)
  | ButtonPress
  | KeyPress (keysym : Nat)
  | other
deriving DecidableEq, Repr

/-- The state of the menu loop: the globals, and the locals `selected` and
`done` (lines 756-757). -/
structure MenuLoop where
  wm : WM
  selected : Int
  done : Int

/-- The loop state on entry: `selected = -1`, `done = 0`. -/
def MenuLoop.start (s : WM) : MenuLoop :=
  { wm := s, selected := -1, done := 0 }

/-- One iteration of the menu loop (lines 761-807) on the event read by
`XNextEvent`, for the menu window `menu` listing `hidden[0 .. count - 1]`.
The `Expose` branch only draws. -/
def menu_event (hidden : List HiddenWindow) (menu : Window) (m : MenuLoop) :
    MenuEvent → MenuLoop
  | .Expose => m
  | .MotionNotify y =>
    let item := y.tdiv MENU_ITEM_H
    if item ≥ 0 ∧ item < hidden.length ∧ item ≠ m.selected then
      { m with selected := item,
               wm := { m.wm with X := m.wm.X.issue (.XClearArea menu) } }
    else m
  | .ButtonPress =>
    if m.selected ≥ 0 ∧ m.selected < hidden.length then
      let frame := (hidden.getD m.selected.toNat { frame := 0, name := "" }).frame
      let X1 := m.wm.X.issue (.XMapWindow frame)
      let X2 := X1.issue (.XRaiseWindow frame)
      let c := find_client_in_frame m.wm.reg X2 frame
      let X3 := X2.issue (.XSetInputFocus (if c ≠ 0 then c else frame))
      { m with wm := { m.wm with X := X3, focus_window := c }, done := 1 }
    else m
  | .KeyPress ks =>
    if ks = XK_Escape ∨ ks = XK_q then { m with done := 1 } else m
  | .other => m

/-- The loop `while (!done) { XNextEvent(dpy, &ev); ... }` on the events
that arrive, first event first: events are read only while `done` is 0. -/
def menu_loop (hidden : List HiddenWindow) (menu : Window) (m : MenuLoop) :
    List MenuEvent → MenuLoop
  | [] => m
  | ev :: evs =>
    if m.done ≠ 0 then m
    else menu_loop hidden menu (menu_event hidden menu m ev) evs

/-- Whether the requests `calls` include an `XChangeProperty` of property
`property` on window `w`. -/
def sets_property (w : Window) (property : Atom) (calls : List XCall) : Bool :=
  calls.any (fun c =>
    match c with
    | .XChangeProperty w2 p2 _ => w2 == w && p2 == property
    | _ => false)

/-- The non-null frame handles of the live entries. -/
def Registry.frame_handles (r : Registry) : List Window :=
  (r.entries.map (fun e => e.frame)).filter (fun f => f != 0)

/-! ## A sample session

Client window 1 sits in frame 2 on a 1920x1080 screen whose root is 50 and
whose status bar is 51; window 3 is a 40x40 top-level window not yet framed. -/

/-- The display of the sample session. -/
def sample_server : XServer :=
  { attrs := fun w =>
      if w = 1 then some { x := 0, y := 26, width := 640, height := 454,
                           override_redirect := 0, map_state := 2 }
      else if w = 2 then some { x := 100, y := 80, width := 640, height := 480,
                                override_redirect := 0, map_state := 2 }
      else if w = 3 then some { x := 0, y := 0, width := 40, height := 40,
                                override_redirect := 0, map_state := 0 }
      else none,
    query_tree := fun _ w =>
      if w = 50 then some (0, [51, 2, 3])
      else if w = 2 then some (50, [1])
      else if w = 1 then some (2, [])
      else if w = 3 then some (50, [])
      else none,
    window_type := fun _ => none,
    screen_width := 1920,
    screen_height := 1080,
    next_id := 100,
    calls := [] }

/-- The window manager of the sample session, idle. -/
def sample_wm : WM :=
  { reg := add_client Registry.empty 1 2,
    drag_state := { start_root_x := 0, start_root_y := 0, win_x := 0, win_y := 0,
                    win_w := 0, win_h := 0, resize_x_dir := 0, resize_y_dir := 0 },
    start_ev := { window := 0, subwindow := 0, x := 0, y := 0, x_root := 0, y_root := 0,
                  state := 0, button := 0 },
    focus_window := 0,
    root := 50,
    bar_win := 51,
    mouse_mod_mask := 8,
    wmatoms := fun i => 300 + i,
    X := sample_server }

/-- A press of button 3 with the modifier held, delivered to client 1 by its
button grab, at a root position in the bottom-right quadrant of frame 2. -/
def sample_press_resize : XButtonEvent :=
  { window := 1, subwindow := 0, x := 600, y := 394, x_root := 700, y_root := 500,
    state := 8, button := 3 }

/-- The sample session in the middle of a resize of frame 2 that began in
its top-left quadrant. -/
def sample_resizing : WM :=
  { sample_wm with
    start_ev := { window := 2, subwindow := 0, x := 10, y := 10, x_root := 110, y_root := 90,
                  state := 8, button := 3 },
    drag_state := { start_root_x := 110, start_root_y := 90, win_x := 100, win_y := 80,
                    win_w := 640, win_h := 480, resize_x_dir := -1, resize_y_dir := -1 } }

/-- A press of button 1 with the modifier held, delivered to client 1 by its
button grab. -/
def sample_press_move : XButtonEvent :=
  { window := 1, subwindow := 0, x := 300, y := 174, x_root := 400, y_root := 280,
    state := 8, button := 1 }

/-- A `_NET_WM_STATE` client message for client 1 naming the fullscreen
atom, with action `l0` (0 remove, 1 add, 2 toggle). -/
def sample_fullscreen_request (l0 : Nat) : XClientMessageEvent :=
  { window := 1, message_type := 302, l0 := l0, l1 := 304, l2 := 0 }

/-- Two bindings of the same key, the first of them `quit`, then a binding
of `Mod4 + Return`. -/
def sample_binds : List KeyBind :=
  [{ mod := Mod4Mask, key := XK_q, command := "quit" },
   { mod := Mod4Mask, key := XK_q, command := "xterm" },
   { mod := Mod4Mask, key := XK_Return, command := "xterm" }]

/-- The sample session with two more framed clients: 5 in frame 4 and 7 in
frame 6. -/
def sample_wm3 : WM :=
  { sample_wm with
    reg := run_calls Registry.empty [.register 1 2, .register 5 4, .register 7 6] }

/-- The hidden windows the picker menu lists for `sample_wm3`. -/
def sample_hidden : List HiddenWindow :=
  [{ frame := 2, name := "one" }, { frame := 4, name := "two" },
   { frame := 6, name := "three" }]

/-- The sample session with window 3 declaring the dock window type. -/
def sample_wm_dock : WM :=
  { sample_wm with
    X := { sample_server with window_type := fun w => if w = 3 then some 308 else none } }

/-- The sample session right after the modifier + button-1 press
`sample_press_move`: a move session on frame 2. -/
def sample_moving : WM :=
  main_ButtonPress sample_wm sample_press_move XWindowAttributes.zero XWindowAttributes.zero

/-- The sample session with window 3 asking for a wide and short size,
2000x40. -/
def sample_wm_wide : WM :=
  { sample_wm with
    X := { sample_server with
           attrs := fun w =>
             if w = 3 then some { x := 0, y := 0, width := 2000, height := 40,
                                  override_redirect := 0, map_state := 0 }
             else sample_server.attrs w } }

/-- A press of button 3 with the modifier held, delivered to the root 50
through the root's button-3 grab, with frame 2 under the pointer as
`subwindow`. -/
def sample_press_root : XButtonEvent :=
  { window := 50, subwindow := 2, x := 700, y := 500, x_root := 700, y_root := 500,
    state := 8, button := 3 }

/-! ## Lemmas on the slot array -/

theorem slots_zero (cl : Nat → ClientState) (i : Nat) : slots cl i 0 = [] := rfl

theorem slots_succ (cl : Nat → ClientState) (i n : Nat) :
    slots cl i (n + 1) = cl i :: slots cl (i + 1) n := by
  simp [slots, List.range'_succ]

theorem length_slots (cl : Nat → ClientState) (i n : Nat) : (slots cl i n).length = n := by
  simp [slots]

theorem mem_slots {cl : Nat → ClientState} {i n : Nat} {e : ClientState} :
    e ∈ slots cl i n ↔ ∃ j, i ≤ j ∧ j < i + n ∧ cl j = e := by
  simp only [slots, List.mem_map, List.mem_range'_1]
  constructor
  · rintro ⟨j, ⟨h1, h2⟩, h3⟩
    exact ⟨j, h1, h2, h3⟩
  · rintro ⟨j, h1, h2, h3⟩
    exact ⟨j, ⟨h1, h2⟩, h3⟩

theorem slots_congr {cl cl2 : Nat → ClientState} {i n : Nat}
    (h : ∀ j, i ≤ j → j < i + n → cl j = cl2 j) : slots cl i n = slots cl2 i n := by
  induction n generalizing i with
  | zero => rfl
  | succ n ih =>
    rw [slots_succ, slots_succ, h i (Nat.le_refl i) (by omega)]
    congr 1
    exact ih (fun j h1 h2 => h j (by omega) (by omega))

theorem slots_concat (cl : Nat → ClientState) (i n : Nat) :
    slots cl i (n + 1) = slots cl i n ++ [cl (i + n)] := by
  simp [slots, List.range'_concat]

theorem first_match_eq_find (p : ClientState → Bool) (cl : Nat → ClientState) (i n : Nat) :
    (first_match p cl i n).map cl = (slots cl i n).find? p := by
  induction n generalizing i with
  | zero => rfl
  | succ n ih =>
    rw [slots_succ, first_match]
    by_cases h : p (cl i) = true
    · simp [h]
    · simp [h, ih]

theorem first_match_none {p : ClientState → Bool} {cl : Nat → ClientState} {i n : Nat} :
    first_match p cl i n = none ↔ ∀ e ∈ slots cl i n, p e = false := by
  have h := first_match_eq_find p cl i n
  constructor
  · intro h0
    rw [h0] at h
    have h2 := List.find?_eq_none.mp h.symm
    intro e he
    simpa using h2 e he
  · intro h0
    cases hf : first_match p cl i n with
    | none => rfl
    | some k =>
      rw [hf] at h
      have h2 : (slots cl i n).find? p = none :=
        List.find?_eq_none.mpr (fun e he => by simp [h0 e he])
      rw [h2] at h
      simp at h

theorem first_match_some {p : ClientState → Bool} {cl : Nat → ClientState} {i n k : Nat}
    (h : first_match p cl i n = some k) :
    i ≤ k ∧ k < i + n ∧ p (cl k) = true ∧ ∀ j, i ≤ j → j < k → p (cl j) = false := by
  induction n generalizing i with
  | zero => simp [first_match] at h
  | succ n ih =>
    rw [first_match] at h
    by_cases hp : p (cl i) = true
    · simp [hp] at h
      subst h
      exact ⟨Nat.le_refl _, by omega, hp, fun j h1 h2 => by omega⟩
    · simp [hp] at h
      obtain ⟨h1, h2, h3, h4⟩ := ih h
      refine ⟨by omega, by omega, h3, fun j hj1 hj2 => ?_⟩
      by_cases hji : j = i
      · subst hji
        simpa using hp
      · exact h4 j (by omega) hj2

theorem shift_down_apply (cl : Nat → ClientState) (i n j : Nat) :
    shift_down cl i n j = if i ≤ j ∧ j < i + n then cl (j + 1) else cl j := by
  induction n generalizing cl i with
  | zero =>
    have h : ¬ (i ≤ j ∧ j < i + 0) := by omega
    rw [if_neg h]
    rfl
  | succ n ih =>
    rw [shift_down, ih]
    by_cases h1 : j = i
    · subst h1
      have h2 : ¬ (j + 1 ≤ j ∧ j < j + 1 + n) := by omega
      have h3 : j ≤ j ∧ j < j + (n + 1) := by omega
      rw [if_neg h2, if_pos h3]
      simp [set_slot]
    · by_cases h2 : i + 1 ≤ j ∧ j < i + 1 + n
      · have h3 : i ≤ j ∧ j < i + (n + 1) := by omega
        have h4 : j + 1 ≠ i := by omega
        rw [if_pos h2, if_pos h3]
        simp [set_slot, h4]
      · have h3 : ¬ (i ≤ j ∧ j < i + (n + 1)) := by omega
        rw [if_neg h2, if_neg h3]
        simp [set_slot, h1]

theorem slots_shift_index (cl : Nat → ClientState) (i n : Nat) :
    slots (fun j => cl (j + 1)) i n = slots cl (i + 1) n := by
  induction n generalizing i with
  | zero => rfl
  | succ n ih => rw [slots_succ, slots_succ, ih]

theorem slots_shift_down_erase {p : ClientState → Bool} {cl : Nat → ClientState} {i n k : Nat}
    (h : first_match p cl i n = some k) :
    slots (shift_down cl k (i + n - 1 - k)) i (n - 1) = (slots cl i n).eraseP p := by
  induction n generalizing i with
  | zero => simp [first_match] at h
  | succ n ih =>
    rw [first_match] at h
    rw [slots_succ]
    by_cases hp : p (cl i) = true
    · simp [hp] at h
      subst h
      rw [List.eraseP_cons_of_pos hp, ← slots_shift_index]
      apply slots_congr
      intro j h1 h2
      have h3 : i ≤ j ∧ j < i + (i + (n + 1) - 1 - i) := by omega
      rw [shift_down_apply, if_pos h3]
    · simp [hp] at h
      have hk := first_match_some h
      rw [List.eraseP_cons_of_neg (by simpa using hp)]
      obtain ⟨m, rfl⟩ : ∃ m, n = m + 1 := ⟨n - 1, by omega⟩
      have e1 : m + 1 + 1 - 1 = m + 1 := rfl
      have e2 : i + (m + 1 + 1) - 1 - k = i + 1 + (m + 1) - 1 - k := by omega
      rw [e1, slots_succ, e2]
      congr 1
      · have h3 : ¬ (k ≤ i ∧ i < k + (i + 1 + (m + 1) - 1 - k)) := by omega
        rw [shift_down_apply, if_neg h3]
      · exact ih h


/-! ## Lemmas on the registry operations -/

theorem length_entries (r : Registry) : r.entries.length = r.client_count :=
  length_slots _ _ _

theorem entries_add_client {r : Registry} (client frame : Window)
    (h : r.client_count < MAX_CLIENTS) :
    (add_client r client frame).entries = r.entries ++
      [{ r.clients r.client_count with client := client, frame := frame, is_fullscreen := 0 }] := by
  unfold Registry.entries
  rw [add_client, if_pos h]
  show slots _ 0 (r.client_count + 1) = _
  rw [slots_concat]
  congr 1
  · apply slots_congr
    intro j _ h2
    have : j ≠ r.client_count := by omega
    simp [set_slot, this]
  · simp [set_slot]

theorem add_client_full {r : Registry} (client frame : Window)
    (h : ¬ r.client_count < MAX_CLIENTS) : add_client r client frame = r := by
  rw [add_client, if_neg h]

theorem entries_remove_client (r : Registry) (client : Window) :
    (remove_client r client).entries = r.entries.eraseP (fun e => e.client == client) := by
  unfold remove_client Registry.entries
  cases h : first_match (fun e => e.client == client) r.clients 0 r.client_count with
  | none =>
    have h2 := first_match_none.mp h
    exact (List.eraseP_of_forall_not (fun e he => by simp [h2 e he])).symm
  | some k =>
    have h2 := slots_shift_down_erase h
    simp only [Nat.zero_add] at h2
    exact h2

theorem get_frame_eq_find (r : Registry) (client : Window) :
    get_frame r client =
      ((r.entries.find? (fun e => e.client == client)).map (fun e => e.frame)).getD 0 := by
  unfold get_frame Registry.entries
  rw [← first_match_eq_find]
  cases first_match (fun e => e.client == client) r.clients 0 r.client_count <;> rfl

theorem find_frame_of_client_eq (r : Registry) (client : Window) :
    find_frame_of_client r client = get_frame r client := rfl

theorem find_eraseP_other (l : List ClientState) {c d : Window} (h : d ≠ c) :
    (l.eraseP (fun e => e.client == c)).find? (fun e => e.client == d) =
      l.find? (fun e => e.client == d) := by
  induction l with
  | nil => rfl
  | cons a l ih =>
    by_cases hc : a.client = c
    · have hd : a.client ≠ d := fun hd => h (hd.symm.trans hc)
      rw [List.eraseP_cons_of_pos (by simpa using hc)]
      simp [List.find?_cons, hd]
    · rw [List.eraseP_cons_of_neg (by simpa using hc)]
      simp only [List.find?_cons, ih]

theorem client_handles_add_client {r : Registry} (client frame : Window)
    (h : r.client_count < MAX_CLIENTS) :
    (add_client r client frame).client_handles = r.client_handles ++ [client] := by
  simp [Registry.client_handles, entries_add_client client frame h]

theorem client_handles_remove_sublist (r : Registry) (client : Window) :
    List.Sublist (remove_client r client).client_handles r.client_handles := by
  unfold Registry.client_handles
  rw [entries_remove_client]
  exact (List.eraseP_sublist _).map _

theorem nodup_run_calls (calls : List RegistryCall) :
    ∀ r : Registry, r.client_handles.Nodup → registers_fresh_clients r calls = true →
      (run_calls r calls).client_handles.Nodup := by
  induction calls with
  | nil => intro r h _; exact h
  | cons c cs ih =>
    intro r h hf
    cases c with
    | register client frame =>
      simp only [registers_fresh_clients, Bool.and_eq_true, Bool.not_eq_true'] at hf
      have hnot : client ∉ r.client_handles := by
        intro hm
        have := hf.1
        simp [hm] at this
      refine ih _ ?_ hf.2
      show (add_client r client frame).client_handles.Nodup
      by_cases hc : r.client_count < MAX_CLIENTS
      · rw [client_handles_add_client client frame hc]
        exact List.Nodup.append h (List.nodup_singleton _) (by simpa using hnot)
      · rw [add_client_full client frame hc]
        exact h
    | unregister client =>
      simp only [registers_fresh_clients] at hf
      refine ih _ ?_ hf
      show (remove_client r client).client_handles.Nodup
      exact h.sublist (client_handles_remove_sublist r client)

theorem count_run_calls (calls : List RegistryCall) :
    ∀ r : Registry, r.client_count ≤ MAX_CLIENTS → (run_calls r calls).client_count ≤ MAX_CLIENTS := by
  induction calls with
  | nil => intro r h; exact h
  | cons c cs ih =>
    intro r h
    refine ih _ ?_
    cases c with
    | register client frame =>
      show (add_client r client frame).client_count ≤ MAX_CLIENTS
      unfold add_client
      split
      · show r.client_count + 1 ≤ MAX_CLIENTS
        omega
      · exact h
    | unregister client =>
      show (remove_client r client).client_count ≤ MAX_CLIENTS
      unfold remove_client
      split
      · show r.client_count - 1 ≤ MAX_CLIENTS
        omega
      · exact h

/-! ## Registry claims -/

/-- C1 (amended): starting from the empty registry, for every sequence of
register (`add_client`) and unregister (`remove_client`) calls in which no
register call names a client handle that a live entry already holds, the
resulting registry never contains two entries with the same client handle. -/
theorem registry_clients_nodup (calls : List RegistryCall)
    (h : registers_fresh_clients Registry.empty calls = true) :
    (run_calls Registry.empty calls).client_handles.Nodup :=
  nodup_run_calls calls Registry.empty List.nodup_nil h

theorem registry_clients_nodup_witness :
    registers_fresh_clients Registry.empty
        [.register 1 2, .register 5 6, .unregister 1, .register 1 9] = true ∧
      (run_calls Registry.empty
        [.register 1 2, .register 5 6, .unregister 1, .register 1 9]).client_handles.Nodup :=
  ⟨by decide, registry_clients_nodup _ (by decide)⟩

/-- C1 (as stated) fails: `add_client` never looks for an existing entry, so
registering client 1 twice leaves two entries whose client handle is 1. -/
theorem registry_clients_dup_counterexample :
    (run_calls Registry.empty [.register 1 2, .register 1 3]).client_handles = [1, 1] ∧
      ¬ (run_calls Registry.empty [.register 1 2, .register 1 3]).client_handles.Nodup := by
  decide

/-- C3: `remove_client r c` removes exactly the first entry whose client
handle is `c` and keeps every other entry in its original relative order;
when no entry has handle `c` the registry (slots and count) is unchanged; and
`get_frame` / `find_frame_of_client` of every other client are as before. -/
theorem remove_client_spec (r : Registry) (c : Window) :
    (remove_client r c).entries = r.entries.eraseP (fun e => e.client == c) ∧
    (∀ (l₁ l₂ : List ClientState) (e : ClientState),
        r.entries = l₁ ++ e :: l₂ → e.client = c → (∀ x ∈ l₁, x.client ≠ c) →
        (remove_client r c).entries = l₁ ++ l₂) ∧
    ((∀ e ∈ r.entries, e.client ≠ c) →
        remove_client r c = r ∧ (remove_client r c).client_count = r.client_count) ∧
    (∀ d : Window, d ≠ c →
        get_frame (remove_client r c) d = get_frame r d ∧
        find_frame_of_client (remove_client r c) d = find_frame_of_client r d) := by
  refine ⟨entries_remove_client r c, ?_, ?_, ?_⟩
  · intro l₁ l₂ e he hc hl
    rw [entries_remove_client, he,
      List.eraseP_append_right _ (fun x hx => by simpa using hl x hx),
      List.eraseP_cons_of_pos (by simpa using hc)]
  · intro h
    have hn : first_match (fun e => e.client == c) r.clients 0 r.client_count = none :=
      first_match_none.mpr (fun e he => by simpa using h e he)
    have : remove_client r c = r := by
      unfold remove_client
      rw [hn]
    exact ⟨this, by rw [this]⟩
  · intro d hd
    have : get_frame (remove_client r c) d = get_frame r d := by
      rw [get_frame_eq_find, get_frame_eq_find, entries_remove_client, find_eraseP_other _ hd]
    exact ⟨this, this⟩

theorem remove_client_spec_witness :
    (remove_client
        (run_calls Registry.empty [.register 1 2, .register 5 6, .register 7 0]) 5).entries
      = [{ ClientState.zero with client := 1, frame := 2 },
         { ClientState.zero with client := 7, frame := 0 }] ∧
    get_frame (remove_client
        (run_calls Registry.empty [.register 1 2, .register 5 6, .register 7 0]) 5) 1 = 2 ∧
    remove_client (run_calls Registry.empty [.register 1 2, .register 5 6, .register 7 0]) 9
      = run_calls Registry.empty [.register 1 2, .register 5 6, .register 7 0] :=
  ⟨(remove_client_spec
      (run_calls Registry.empty [.register 1 2, .register 5 6, .register 7 0]) 5).2.1
      [{ ClientState.zero with client := 1, frame := 2 }]
      [{ ClientState.zero with client := 7, frame := 0 }]
      { ClientState.zero with client := 5, frame := 6 }
      (by decide) (by decide) (by decide),
   by decide,
   ((remove_client_spec
      (run_calls Registry.empty [.register 1 2, .register 5 6, .register 7 0]) 9).2.2.1
      (by decide)).1⟩

/-- C8: for every sequence of register / unregister calls from the empty
registry the number of entries never exceeds 256 (`MAX_CLIENTS`), and
`add_client` on a registry that already holds 256 entries returns the
registry unchanged (all slots and the count). -/
theorem registry_capacity :
    (∀ calls : List RegistryCall,
        (run_calls Registry.empty calls).entries.length ≤ 256 ∧
        (run_calls Registry.empty calls).client_count ≤ 256) ∧
    (∀ (r : Registry) (client frame : Window),
        r.entries.length = 256 → add_client r client frame = r) := by
  constructor
  · intro calls
    have h := count_run_calls calls Registry.empty (Nat.zero_le _)
    rw [length_entries]
    exact ⟨h, h⟩
  · intro r client frame h
    rw [length_entries] at h
    exact add_client_full client frame (by rw [h]; decide)

set_option maxRecDepth 100000 in
theorem registry_capacity_witness :
    (run_calls Registry.empty
        ((List.range 256).map (fun i => RegistryCall.register (2 * i + 1) (2 * i + 2)))).entries.length
        = 256 ∧
      add_client (run_calls Registry.empty
        ((List.range 256).map (fun i => RegistryCall.register (2 * i + 1) (2 * i + 2)))) 1000 1001
        = run_calls Registry.empty
        ((List.range 256).map (fun i => RegistryCall.register (2 * i + 1) (2 * i + 2))) :=
  ⟨by rw [length_entries]; decide,
   registry_capacity.2 _ 1000 1001 (by rw [length_entries]; decide)⟩

theorem first_match_unique {p : ClientState → Bool} {cl : Nat → ClientState} {i0 n i : Nat}
    (h1 : i0 ≤ i) (h2 : i < i0 + n) (hp : p (cl i) = true)
    (hfirst : ∀ j, i0 ≤ j → j < i → p (cl j) = false) :
    first_match p cl i0 n = some i := by
  cases h : first_match p cl i0 n with
  | none =>
    have := first_match_none.mp h (cl i) (mem_slots.mpr ⟨i, h1, h2, rfl⟩)
    rw [hp] at this
    exact absurd this (by decide)
  | some k =>
    obtain ⟨hk1, _, hk3, hk4⟩ := first_match_some h
    by_cases hlt : k < i
    · have := hfirst k hk1 hlt
      rw [hk3] at this
      exact absurd this (by decide)
    · by_cases hgt : i < k
      · have := hk4 i h1 hgt
        rw [hp] at this
        exact absurd this (by decide)
      · have : k = i := by omega
        rw [this]

/-- C2 (amended): for every registry (so for every one reached by register /
unregister calls) and every pair (client c, frame f) registered in it: when no
other entry holds the client handle c, `get_frame` and `find_frame_of_client`
of c return f; and when no other entry holds the frame handle f,
`find_client_in_frame` of f returns c. -/
theorem lookups_inverse_when_unique (r : Registry) (X : XServer) (i : Nat)
    (hi : i < r.client_count) :
    ((∀ j, j < r.client_count → j ≠ i → (r.clients j).client ≠ (r.clients i).client) →
      get_frame r (r.clients i).client = (r.clients i).frame ∧
      find_frame_of_client r (r.clients i).client = (r.clients i).frame) ∧
    ((∀ j, j < r.client_count → j ≠ i → (r.clients j).frame ≠ (r.clients i).frame) →
      find_client_in_frame r X (r.clients i).frame = (r.clients i).client) := by
  constructor
  · intro h
    have hm : first_match (fun e => e.client == (r.clients i).client) r.clients 0 r.client_count
        = some i :=
      first_match_unique (Nat.zero_le _) (by omega) (by simp)
        (fun j _ hj => by simpa using h j (by omega) (by omega))
    have : get_frame r (r.clients i).client = (r.clients i).frame := by
      unfold get_frame
      rw [hm]
    exact ⟨this, this⟩
  · intro h
    have hm : first_match (fun e => e.frame == (r.clients i).frame) r.clients 0 r.client_count
        = some i :=
      first_match_unique (Nat.zero_le _) (by omega) (by simp)
        (fun j _ hj => by simpa using h j (by omega) (by omega))
    unfold find_client_in_frame
    rw [hm]

theorem lookups_inverse_when_unique_witness :
    get_frame (run_calls Registry.empty [.register 1 2, .register 5 6, .register 7 0]) 5 = 6 ∧
      find_client_in_frame (run_calls Registry.empty [.register 1 2, .register 5 6, .register 7 0])
        sample_server 6 = 5 :=
  ⟨((lookups_inverse_when_unique
        (run_calls Registry.empty [.register 1 2, .register 5 6, .register 7 0]) sample_server 1
        (by decide)).1 (by decide)).1,
   (lookups_inverse_when_unique
        (run_calls Registry.empty [.register 1 2, .register 5 6, .register 7 0]) sample_server 1
        (by decide)).2 (by decide)⟩

/-- C2 (as stated) fails.  Two windows registered unframed share the null
frame handle: the pair (2, 0) is registered but `find_client_in_frame 0` is 1.
A client registered twice keeps its first frame: the pair (1, 3) is registered
but `get_frame 1` is 2.  Two clients registered with one frame handle: the
pair (2, 5) is registered but `find_client_in_frame 5` is 1. -/
theorem lookups_not_inverse_counterexample :
    ((run_calls Registry.empty [.register 1 0, .register 2 0]).entries.map
        (fun e => (e.client, e.frame)) = [(1, 0), (2, 0)] ∧
      find_client_in_frame (run_calls Registry.empty [.register 1 0, .register 2 0])
        sample_server 0 = 1) ∧
    ((run_calls Registry.empty [.register 1 2, .register 1 3]).entries.map
        (fun e => (e.client, e.frame)) = [(1, 2), (1, 3)] ∧
      get_frame (run_calls Registry.empty [.register 1 2, .register 1 3]) 1 = 2 ∧
      find_frame_of_client (run_calls Registry.empty [.register 1 2, .register 1 3]) 1 = 2) ∧
    ((run_calls Registry.empty [.register 1 5, .register 2 5]).entries.map
        (fun e => (e.client, e.frame)) = [(1, 5), (2, 5)] ∧
      find_client_in_frame (run_calls Registry.empty [.register 1 5, .register 2 5])
        sample_server 5 = 1) := by
  decide

/-! ## Gesture claims -/

theorem resize_geometry_min (d : DragState) (x_root y_root : Int) :
    60 ≤ (resize_geometry d x_root y_root).width ∧
      60 ≤ (resize_geometry d x_root y_root).height := by
  simp only [resize_geometry, MIN_SIZE]
  constructor <;> split_ifs <;> omega

theorem motion_resize_calls (s : WM) (x_root y_root : Int)
    (hs : s.start_ev.window ≠ 0) (hb : s.start_ev.button = Button3) :
    ∃ rest, (main_MotionNotify s x_root y_root).X.calls =
      s.X.calls ++ XCall.XMoveResizeWindow s.start_ev.window
        (resize_geometry s.drag_state x_root y_root).x
        (resize_geometry s.drag_state x_root y_root).y
        (resize_geometry s.drag_state x_root y_root).width
        (resize_geometry s.drag_state x_root y_root).height :: rest ∧
      ∀ c ∈ rest, ∃ w cw ch, c = XCall.XResizeWindow w cw ch := by
  unfold main_MotionNotify
  rw [if_neg hs, if_pos hb]
  dsimp only
  split_ifs
  · refine ⟨[_], by simp [XResizeWindow, XMoveResizeWindow, XServer.issue, XServer.configure]; rfl,
      ?_⟩
    intro c hc
    rw [List.mem_singleton] at hc
    exact ⟨_, _, _, hc⟩
  · exact ⟨[], by simp [XMoveResizeWindow, XServer.issue, XServer.configure], by simp⟩

/-- C5: in a resize session (`start_ev.window` set, `start_ev.button` 3), for
every anchor geometry and captured direction in `drag_state` and every
pointer position of the motion event, the one geometry the handler applies to
the target (its `XMoveResizeWindow` request; the only other request it may
issue resizes the hosted client) has width and height at least 60
(`MIN_SIZE`). -/
theorem resize_never_below_min (s : WM) (x_root y_root : Int)
    (hs : s.start_ev.window ≠ 0) (hb : s.start_ev.button = Button3) :
    ∃ x y width height rest,
      (main_MotionNotify s x_root y_root).X.calls =
        s.X.calls ++ XCall.XMoveResizeWindow s.start_ev.window x y width height :: rest ∧
      (∀ c ∈ rest, ∃ w cw ch, c = XCall.XResizeWindow w cw ch) ∧
      60 ≤ width ∧ 60 ≤ height := by
  obtain ⟨rest, h1, h2⟩ := motion_resize_calls s x_root y_root hs hb
  exact ⟨_, _, _, _, rest, h1, h2, resize_geometry_min s.drag_state x_root y_root⟩

theorem resize_never_below_min_witness :
    (sample_resizing.start_ev.window ≠ 0 ∧ sample_resizing.start_ev.button = Button3) ∧
    ∃ x y width height rest,
      (main_MotionNotify sample_resizing 5000 5000).X.calls =
        sample_resizing.X.calls ++
          XCall.XMoveResizeWindow sample_resizing.start_ev.window x y width height :: rest ∧
      (∀ c ∈ rest, ∃ w cw ch, c = XCall.XResizeWindow w cw ch) ∧
      60 ≤ width ∧ 60 ≤ height :=
  ⟨by decide, resize_never_below_min sample_resizing 5000 5000 (by decide) (by decide)⟩

theorem resize_geometry_anchor (d : DragState) (x_root y_root : Int) :
    (d.resize_x_dir = 1 → (resize_geometry d x_root y_root).x = d.win_x) ∧
    (d.resize_x_dir = -1 →
      (resize_geometry d x_root y_root).x + (resize_geometry d x_root y_root).width
        = d.win_x + d.win_w) ∧
    (d.resize_y_dir = 1 → (resize_geometry d x_root y_root).y = d.win_y) ∧
    (d.resize_y_dir = -1 →
      (resize_geometry d x_root y_root).y + (resize_geometry d x_root y_root).height
        = d.win_y + d.win_h) := by
  simp only [resize_geometry, MIN_SIZE]
  refine ⟨?_, ?_, ?_, ?_⟩ <;> intro h <;> split_ifs <;> omega

theorem press_resize_session (s : WM) (ev : XButtonEvent) (fa0 attr0 a : XWindowAttributes)
    (hfs : press_is_fs s ev = 0) (hmod : ev.state &&& s.mouse_mod_mask ≠ 0)
    (hb : ev.button = Button3)
    (h0 : (if resolve_frame s ev ≠ 0 then resolve_frame s ev else ev.subwindow) ≠ 0)
    (hbar : (if resolve_frame s ev ≠ 0 then resolve_frame s ev else ev.subwindow) ≠ s.bar_win)
    (hroot : (if resolve_frame s ev ≠ 0 then resolve_frame s ev else ev.subwindow) ≠ s.root)
    (ha : s.X.attrs (if resolve_frame s ev ≠ 0 then resolve_frame s ev else ev.subwindow)
            = some a) :
    (main_ButtonPress s ev fa0 attr0).start_ev =
        { ev with window := (if resolve_frame s ev ≠ 0 then resolve_frame s ev else ev.subwindow),
                  button := Button3 } ∧
    (main_ButtonPress s ev fa0 attr0).drag_state =
        { start_root_x := ev.x_root, start_root_y := ev.y_root,
          win_x := a.x, win_y := a.y, win_w := a.width, win_h := a.height,
          resize_x_dir := if ev.x_root > a.x + a.width.tdiv 2 then 1 else -1,
          resize_y_dir := if ev.y_root > a.y + a.height.tdiv 2 then 1 else -1 } := by
  have hb1 : ev.button ≠ Button1 := by rw [hb]; decide
  have hattr : XGetWindowAttributes (s.X.issue (.XAllowEvents .AsyncPointer))
      (if resolve_frame s ev ≠ 0 then resolve_frame s ev else ev.subwindow) attr0 = a := by
    simp only [XGetWindowAttributes, XServer.issue, ha]
  unfold main_ButtonPress
  dsimp only
  rw [if_neg (fun h => hb1 h.2.2), if_pos (And.intro hfs (And.intro hmod hb)),
    if_pos (And.intro h0 (And.intro hbar hroot)), hattr]
  exact ⟨rfl, rfl⟩

theorem motion_preserves_session (s : WM) (x_root y_root : Int) :
    (main_MotionNotify s x_root y_root).drag_state = s.drag_state ∧
    (main_MotionNotify s x_root y_root).start_ev = s.start_ev ∧
    (main_MotionNotify s x_root y_root).reg = s.reg := by
  unfold main_MotionNotify
  dsimp only
  split_ifs <;> exact ⟨rfl, rfl, rfl⟩

theorem motion_sequence_preserves_session (ps : List (Int × Int)) :
    ∀ s : WM, (motion_sequence s ps).drag_state = s.drag_state ∧
      (motion_sequence s ps).start_ev = s.start_ev ∧ (motion_sequence s ps).reg = s.reg := by
  induction ps with
  | nil => intro s; exact ⟨rfl, rfl, rfl⟩
  | cons p ps ih =>
    intro s
    obtain ⟨h1, h2, h3⟩ := ih (main_MotionNotify s p.1 p.2)
    obtain ⟨g1, g2, g3⟩ := motion_preserves_session s p.1 p.2
    exact ⟨h1.trans g1, h2.trans g2, h3.trans g3⟩

/-- C6: during a resize session the anchored edges never move, for every
motion event and pointer position, clamped or not.  (1) The geometry the
motion handler applies to the target has, on an axis whose captured direction
is +1, its origin equal to the anchor origin, and on an axis whose captured
direction is -1, origin plus size equal to anchor origin plus anchor size.
(2) A modifier + button-3 press in the bottom-right quadrant of a target with
attributes `a` starts a session in which, after any earlier motion events,
every motion event places the target's top-left corner at `(a.x, a.y)`. -/
theorem resize_keeps_anchored_edges :
    (∀ (s : WM) (x_root y_root : Int), s.start_ev.window ≠ 0 → s.start_ev.button = Button3 →
      ∃ x y width height rest,
        (main_MotionNotify s x_root y_root).X.calls =
          s.X.calls ++ XCall.XMoveResizeWindow s.start_ev.window x y width height :: rest ∧
        (∀ c ∈ rest, ∃ w cw ch, c = XCall.XResizeWindow w cw ch) ∧
        (s.drag_state.resize_x_dir = 1 → x = s.drag_state.win_x) ∧
        (s.drag_state.resize_x_dir = -1 →
          x + width = s.drag_state.win_x + s.drag_state.win_w) ∧
        (s.drag_state.resize_y_dir = 1 → y = s.drag_state.win_y) ∧
        (s.drag_state.resize_y_dir = -1 →
          y + height = s.drag_state.win_y + s.drag_state.win_h)) ∧
    (∀ (s : WM) (ev : XButtonEvent) (fa0 attr0 a : XWindowAttributes) (target : Window),
      target = (if resolve_frame s ev ≠ 0 then resolve_frame s ev else ev.subwindow) →
      press_is_fs s ev = 0 → ev.state &&& s.mouse_mod_mask ≠ 0 → ev.button = Button3 →
      target ≠ 0 → target ≠ s.bar_win → target ≠ s.root → s.X.attrs target = some a →
      ev.x_root > a.x + a.width.tdiv 2 → ev.y_root > a.y + a.height.tdiv 2 →
      (main_ButtonPress s ev fa0 attr0).drag_state.resize_x_dir = 1 ∧
      (main_ButtonPress s ev fa0 attr0).drag_state.resize_y_dir = 1 ∧
      ∀ (earlier : List (Int × Int)) (x_root y_root : Int),
        ∃ width height rest,
          (main_MotionNotify (motion_sequence (main_ButtonPress s ev fa0 attr0) earlier)
              x_root y_root).X.calls =
            (motion_sequence (main_ButtonPress s ev fa0 attr0) earlier).X.calls ++
              XCall.XMoveResizeWindow target a.x a.y width height :: rest ∧
          (∀ c ∈ rest, ∃ w cw ch, c = XCall.XResizeWindow w cw ch)) := by
  constructor
  · intro s x_root y_root hs hb
    obtain ⟨rest, h1, h2⟩ := motion_resize_calls s x_root y_root hs hb
    obtain ⟨a1, a2, a3, a4⟩ := resize_geometry_anchor s.drag_state x_root y_root
    exact ⟨_, _, _, _, rest, h1, h2, a1, a2, a3, a4⟩
  · intro s ev fa0 attr0 a target ht hfs hmod hb h0 hbar hroot ha hx hy
    subst ht
    obtain ⟨hstart, hdrag⟩ := press_resize_session s ev fa0 attr0 a hfs hmod hb h0 hbar hroot ha
    have hdx : (main_ButtonPress s ev fa0 attr0).drag_state.resize_x_dir = 1 := by
      rw [hdrag]; exact if_pos hx
    have hdy : (main_ButtonPress s ev fa0 attr0).drag_state.resize_y_dir = 1 := by
      rw [hdrag]; exact if_pos hy
    refine ⟨hdx, hdy, ?_⟩
    intro earlier x_root y_root
    obtain ⟨p1, p2, _⟩ := motion_sequence_preserves_session earlier (main_ButtonPress s ev fa0 attr0)
    have hw : (motion_sequence (main_ButtonPress s ev fa0 attr0) earlier).start_ev.window ≠ 0 := by
      rw [p2, hstart]; exact h0
    have hbt : (motion_sequence (main_ButtonPress s ev fa0 attr0) earlier).start_ev.button
        = Button3 := by
      rw [p2, hstart]
    obtain ⟨rest, h1, h2⟩ := motion_resize_calls _ x_root y_root hw hbt
    obtain ⟨a1, _, a3, _⟩ := resize_geometry_anchor
      (motion_sequence (main_ButtonPress s ev fa0 attr0) earlier).drag_state x_root y_root
    rw [p1] at a1 a3
    rw [p1, a1 hdx, a3 hdy, p2, hstart, hdrag] at h1
    exact ⟨_, _, rest, h1, h2⟩

theorem resize_keeps_anchored_edges_witness :
    ∃ width height rest,
      (main_MotionNotify (motion_sequence
          (main_ButtonPress sample_wm sample_press_resize XWindowAttributes.zero
            XWindowAttributes.zero) [(710, 480), (5, 5)]) 900 20).X.calls =
        (motion_sequence
          (main_ButtonPress sample_wm sample_press_resize XWindowAttributes.zero
            XWindowAttributes.zero) [(710, 480), (5, 5)]).X.calls ++
          XCall.XMoveResizeWindow 2 100 80 width height :: rest ∧
      (∀ c ∈ rest, ∃ w cw ch, c = XCall.XResizeWindow w cw ch) :=
  (resize_keeps_anchored_edges.2 sample_wm sample_press_resize XWindowAttributes.zero
    XWindowAttributes.zero
    { x := 100, y := 80, width := 640, height := 480, override_redirect := 0, map_state := 2 }
    2 (by decide) (by decide) (by decide) (by decide) (by decide) (by decide) (by decide)
    (by decide) (by decide) (by decide)).2.2 [(710, 480), (5, 5)] 900 20

/-! ## Framing claims -/

/-- C7 (amended): for every screen size (sw, sh), framing a framable client
whose requested size is below the minimum (width or height under 60, such as
40x40) resizes the client to 800x500 and creates a decoration frame of size
800x526 (the client height plus the 26-unit title bar) at x = (sw - 800) / 2
and y = (sh - 500) / 2, except that y is 26 (the bar height) when
(sh - 500) / 2 is less than 26; the client is registered with that frame. -/
theorem frame_window_undersized (s : WM) (client : Window) (a : XWindowAttributes)
    (hc : client ≠ 0) (ha : s.X.attrs client = some a) (hor : a.override_redirect = 0)
    (hframe : should_frame s client = true) (hsmall : a.width < 60 ∨ a.height < 60) :
    (∃ rest, (frame_window s client).X.calls =
      s.X.calls ++ XCall.XResizeWindow client 800 500 ::
        XCall.XCreateSimpleWindow s.root ((s.X.screen_width - 800).tdiv 2)
          (if (s.X.screen_height - 500).tdiv 2 < 26 then 26
            else (s.X.screen_height - 500).tdiv 2)
          800 526 s.X.next_id :: rest) ∧
    (∃ fa, (frame_window s client).X.attrs s.X.next_id = some fa ∧
      fa.x = (s.X.screen_width - 800).tdiv 2 ∧
      fa.y = (if (s.X.screen_height - 500).tdiv 2 < 26 then 26
                else (s.X.screen_height - 500).tdiv 2) ∧
      fa.width = 800 ∧ fa.height = 526) ∧
    (frame_window s client).reg = add_client s.reg client s.X.next_id := by
  have hu : (decide (a.width < MIN_SIZE) || decide (a.height < MIN_SIZE)) = true := by
    simp only [MIN_SIZE, Bool.or_eq_true, decide_eq_true_eq]
    exact hsmall
  unfold frame_window
  rw [if_neg hc]
  simp only [ha, hor, hframe, hu]
  simp only [ne_eq, not_true_eq_false, if_false, if_true, Bool.true_eq_false,
    update_client_list, XCreateSimpleWindow, XResizeWindow, XServer.issue, XServer.configure,
    DEFAULT_WINDOW_WIDTH, DEFAULT_WINDOW_HEIGHT, BAR_HEIGHT, TITLE_HEIGHT]
  split <;> simp

theorem frame_window_undersized_witness :
    (∃ rest, (frame_window sample_wm 3).X.calls =
      sample_wm.X.calls ++ XCall.XResizeWindow 3 800 500 ::
        XCall.XCreateSimpleWindow sample_wm.root ((sample_wm.X.screen_width - 800).tdiv 2)
          (if (sample_wm.X.screen_height - 500).tdiv 2 < 26 then 26
            else (sample_wm.X.screen_height - 500).tdiv 2)
          800 526 sample_wm.X.next_id :: rest) ∧
    (∃ fa, (frame_window sample_wm 3).X.attrs sample_wm.X.next_id = some fa ∧
      fa.x = (sample_wm.X.screen_width - 800).tdiv 2 ∧
      fa.y = (if (sample_wm.X.screen_height - 500).tdiv 2 < 26 then 26
                else (sample_wm.X.screen_height - 500).tdiv 2) ∧
      fa.width = 800 ∧ fa.height = 526) ∧
    (frame_window sample_wm 3).reg = add_client sample_wm.reg 3 sample_wm.X.next_id :=
  frame_window_undersized sample_wm 3
    { x := 0, y := 0, width := 40, height := 40, override_redirect := 0, map_state := 0 }
    (by decide) (by decide) (by decide) (by decide) (by decide)

/-- C7 (as stated) fails on the frame size: on a 1920x1080 screen, framing the
40x40 window 3 creates frame 100 at (560, 290) with size 800x526, not 800x500;
800x500 is the size given to the client. -/
theorem frame_window_size_counterexample :
    XCall.XResizeWindow 3 800 500 ∈ (frame_window sample_wm 3).X.calls ∧
    XCall.XCreateSimpleWindow 50 560 290 800 526 100 ∈ (frame_window sample_wm 3).X.calls ∧
    ((frame_window sample_wm 3).X.attrs 100).map (fun a => (a.x, a.y, a.width, a.height))
      = some (560, 290, 800, 526) ∧
    get_frame (frame_window sample_wm 3).reg 3 = 100 ∧
    ((frame_window sample_wm 3).X.attrs 100).map (fun a => (a.width, a.height))
      ≠ some (800, 500) := by
  decide

/-! ## Fullscreen claims -/

theorem first_match_of_first_entry {r : Registry} {client : Window} {i : Nat}
    (hi : i < r.client_count) (hc : (r.clients i).client = client)
    (hfirst : ∀ j, j < i → (r.clients j).client ≠ client) :
    first_match (fun e => e.client == client) r.clients 0 r.client_count = some i :=
  first_match_unique (Nat.zero_le _) (by omega) (by simpa using hc)
    (fun j _ hj => by simpa using hfirst j hj)

theorem toggle_fullscreen_eq {s : WM} {client : Window} {i : Nat}
    (hi : i < s.reg.client_count) (hc : (s.reg.clients i).client = client)
    (hfirst : ∀ j, j < i → (s.reg.clients j).client ≠ client)
    (hf : (s.reg.clients i).frame ≠ 0) :
    toggle_fullscreen s client =
      if (s.reg.clients i).is_fullscreen = 0 then
        enter_fullscreen s client (s.reg.clients i).frame i
      else exit_fullscreen s client (s.reg.clients i).frame i := by
  have hm := first_match_of_first_entry hi hc hfirst
  have hg : get_frame s.reg client = (s.reg.clients i).frame := by
    unfold get_frame
    rw [hm]
  unfold toggle_fullscreen
  simp only [hg, hm, if_neg hf]

theorem enter_fullscreen_slot (s : WM) (client frame : Window) (i : Nat) :
    (enter_fullscreen s client frame i).reg.client_count = s.reg.client_count ∧
    (enter_fullscreen s client frame i).reg.clients i =
      { s.reg.clients i with
        old_attr := XGetWindowAttributes s.X frame (s.reg.clients i).old_attr,
        is_fullscreen := 1 } ∧
    (∀ j, j ≠ i → (enter_fullscreen s client frame i).reg.clients j = s.reg.clients j) ∧
    (enter_fullscreen s client frame i).wmatoms = s.wmatoms := by
  refine ⟨rfl, ?_, ?_, rfl⟩
  · simp [enter_fullscreen, set_slot]
  · intro j hj
    simp [enter_fullscreen, set_slot, hj]

theorem exit_fullscreen_slot (s : WM) (client frame : Window) (i : Nat) :
    (exit_fullscreen s client frame i).reg.client_count = s.reg.client_count ∧
    (exit_fullscreen s client frame i).reg.clients i =
      { s.reg.clients i with is_fullscreen := 0 } ∧
    (∀ j, j ≠ i → (exit_fullscreen s client frame i).reg.clients j = s.reg.clients j) ∧
    (exit_fullscreen s client frame i).wmatoms = s.wmatoms := by
  refine ⟨rfl, ?_, ?_, rfl⟩
  · simp [exit_fullscreen, set_slot]
  · intro j hj
    simp [exit_fullscreen, set_slot, hj]

/-- C4 (amended): for every registered framed client that is not fullscreen
when the first call is made, every frame geometry and every screen size,
calling `toggle_fullscreen` twice in a row on that client leaves the frame with
exactly the attributes (position and size) it had before the first call, and
leaves `is_fullscreen` false.  The client's entry is slot `i`, the first one
holding its handle; its frame is a window other than the client. -/
theorem toggle_fullscreen_twice (s : WM) (client : Window) (i : Nat) (g : XWindowAttributes)
    (hi : i < s.reg.client_count) (hc : (s.reg.clients i).client = client)
    (hfirst : ∀ j, j < i → (s.reg.clients j).client ≠ client)
    (hf : (s.reg.clients i).frame ≠ 0) (hne : (s.reg.clients i).frame ≠ client)
    (hg : s.X.attrs (s.reg.clients i).frame = some g)
    (hfs : (s.reg.clients i).is_fullscreen = 0) :
    (toggle_fullscreen (toggle_fullscreen s client) client).X.attrs (s.reg.clients i).frame
      = some g ∧
    ((toggle_fullscreen (toggle_fullscreen s client) client).reg.clients i).is_fullscreen = 0 ∧
    ((toggle_fullscreen s client).reg.clients i).is_fullscreen = 1 ∧
    ((toggle_fullscreen s client).X.attrs (s.reg.clients i).frame).map
        (fun a => (a.x, a.y, a.width, a.height))
      = some (0, 0, s.X.screen_width, s.X.screen_height) := by
  have e1 : toggle_fullscreen s client = enter_fullscreen s client (s.reg.clients i).frame i := by
    rw [toggle_fullscreen_eq hi hc hfirst hf, if_pos hfs]
  obtain ⟨c1, c2, c3, _⟩ := enter_fullscreen_slot s client (s.reg.clients i).frame i
  have hi1 : i < (toggle_fullscreen s client).reg.client_count := by rw [e1, c1]; exact hi
  have hc1 : ((toggle_fullscreen s client).reg.clients i).client = client := by
    rw [e1, c2]; exact hc
  have hfirst1 : ∀ j, j < i → ((toggle_fullscreen s client).reg.clients j).client ≠ client := by
    intro j hj
    rw [e1, c3 j (by omega)]
    exact hfirst j hj
  have hf1 : ((toggle_fullscreen s client).reg.clients i).frame = (s.reg.clients i).frame := by
    rw [e1, c2]
  have hfs1 : ((toggle_fullscreen s client).reg.clients i).is_fullscreen = 1 := by
    rw [e1, c2]
  have e2 : toggle_fullscreen (toggle_fullscreen s client) client =
      exit_fullscreen (toggle_fullscreen s client) client (s.reg.clients i).frame i := by
    rw [toggle_fullscreen_eq hi1 hc1 hfirst1 (by rw [hf1]; exact hf), hf1,
      if_neg (by rw [hfs1]; decide)]
  refine ⟨?_, ?_, hfs1, ?_⟩
  · rw [e2]
    have hold : ((toggle_fullscreen s client).reg.clients i).old_attr = g := by
      rw [e1, c2]
      simp [XGetWindowAttributes, hg]
    simp only [exit_fullscreen, hold]
    rw [e1]
    simp [enter_fullscreen, XMoveResizeWindow, XResizeWindow, XServer.configure, XServer.issue,
      hne, hg]
  · rw [e2]
    exact congrArg ClientState.is_fullscreen
      (exit_fullscreen_slot (toggle_fullscreen s client) client (s.reg.clients i).frame i).2.1
  · rw [e1]
    simp [enter_fullscreen, XMoveResizeWindow, XResizeWindow, XServer.configure, XServer.issue,
      hne, hg]

theorem toggle_fullscreen_twice_witness :
    (toggle_fullscreen (toggle_fullscreen sample_wm 1) 1).X.attrs (sample_wm.reg.clients 0).frame
      = some { x := 100, y := 80, width := 640, height := 480,
               override_redirect := 0, map_state := 2 } ∧
    ((toggle_fullscreen (toggle_fullscreen sample_wm 1) 1).reg.clients 0).is_fullscreen = 0 ∧
    ((toggle_fullscreen sample_wm 1).reg.clients 0).is_fullscreen = 1 ∧
    ((toggle_fullscreen sample_wm 1).X.attrs (sample_wm.reg.clients 0).frame).map
        (fun a => (a.x, a.y, a.width, a.height))
      = some (0, 0, sample_wm.X.screen_width, sample_wm.X.screen_height) :=
  toggle_fullscreen_twice sample_wm 1 0
    { x := 100, y := 80, width := 640, height := 480, override_redirect := 0, map_state := 2 }
    (by decide) (by decide) (by decide) (by decide) (by decide) (by decide) (by decide)

/-- C4 (as stated) fails for a client that is already fullscreen: after one
toggle client 1 (frame 2) is registered, framed and fullscreen; two further
calls in a row leave it fullscreen again, with `is_fullscreen` 1, not false. -/
theorem toggle_fullscreen_twice_counterexample :
    get_frame (toggle_fullscreen sample_wm 1).reg 1 = 2 ∧
    ((toggle_fullscreen sample_wm 1).reg.clients 0).is_fullscreen = 1 ∧
    ((toggle_fullscreen (toggle_fullscreen (toggle_fullscreen sample_wm 1) 1) 1).reg.clients
        0).is_fullscreen = 1 ∧
    ((toggle_fullscreen (toggle_fullscreen (toggle_fullscreen sample_wm 1) 1) 1).reg.clients
        0).is_fullscreen ≠ 0 := by
  decide

theorem main_ClientMessage_fullscreen {s : WM} {ev : XClientMessageEvent}
    (h1 : ev.message_type = s.wmatoms NET_WM_STATE)
    (h2 : ev.l1 = s.wmatoms NET_WM_STATE_FULLSCREEN ∨ ev.l2 = s.wmatoms NET_WM_STATE_FULLSCREEN) :
    main_ClientMessage s ev = toggle_fullscreen s ev.window := by
  unfold main_ClientMessage
  rw [if_pos h1, if_pos h2]

theorem toggle_fullscreen_flips {s : WM} {client : Window} {i : Nat}
    (hi : i < s.reg.client_count) (hc : (s.reg.clients i).client = client)
    (hfirst : ∀ j, j < i → (s.reg.clients j).client ≠ client)
    (hf : (s.reg.clients i).frame ≠ 0) :
    (((toggle_fullscreen s client).reg.clients i).is_fullscreen = 0 ↔
      (s.reg.clients i).is_fullscreen ≠ 0) ∧
    i < (toggle_fullscreen s client).reg.client_count ∧
    ((toggle_fullscreen s client).reg.clients i).client = client ∧
    (∀ j, j < i → ((toggle_fullscreen s client).reg.clients j).client ≠ client) ∧
    ((toggle_fullscreen s client).reg.clients i).frame = (s.reg.clients i).frame ∧
    (toggle_fullscreen s client).wmatoms = s.wmatoms := by
  rw [toggle_fullscreen_eq hi hc hfirst hf]
  by_cases hfs : (s.reg.clients i).is_fullscreen = 0
  · rw [if_pos hfs]
    obtain ⟨c1, c2, c3, c4⟩ := enter_fullscreen_slot s client (s.reg.clients i).frame i
    refine ⟨?_, by rw [c1]; exact hi, by rw [c2]; exact hc, ?_, by rw [c2], c4⟩
    · rw [c2]
      simp [hfs]
    · intro j hj
      rw [c3 j (by omega)]
      exact hfirst j hj
  · rw [if_neg hfs]
    obtain ⟨c1, c2, c3, c4⟩ := exit_fullscreen_slot s client (s.reg.clients i).frame i
    refine ⟨?_, by rw [c1]; exact hi, by rw [c2]; exact hc, ?_, by rw [c2], c4⟩
    · rw [c2]
      simp [hfs]
    · intro j hj
      rw [c3 j (by omega)]
      exact hfirst j hj

/-- C9 (amended): the state-change handler never reads the requested
direction (`data.l[0]`): for every registered framed client, every fullscreen
state-change request flips the client's `is_fullscreen` flag, so after two
consecutive requests, in the same direction or not, the flag is set exactly
when it was set before the first request; the second request undoes the first
and is not a no-op. -/
theorem fullscreen_requests_toggle (s : WM) (ev1 ev2 : XClientMessageEvent) (i : Nat)
    (hi : i < s.reg.client_count) (hc : (s.reg.clients i).client = ev1.window)
    (hfirst : ∀ j, j < i → (s.reg.clients j).client ≠ ev1.window)
    (hf : (s.reg.clients i).frame ≠ 0)
    (hw : ev2.window = ev1.window)
    (h1 : ev1.message_type = s.wmatoms NET_WM_STATE)
    (h1fs : ev1.l1 = s.wmatoms NET_WM_STATE_FULLSCREEN ∨
      ev1.l2 = s.wmatoms NET_WM_STATE_FULLSCREEN)
    (h2 : ev2.message_type = s.wmatoms NET_WM_STATE)
    (h2fs : ev2.l1 = s.wmatoms NET_WM_STATE_FULLSCREEN ∨
      ev2.l2 = s.wmatoms NET_WM_STATE_FULLSCREEN) :
    (((main_ClientMessage s ev1).reg.clients i).is_fullscreen = 0 ↔
      (s.reg.clients i).is_fullscreen ≠ 0) ∧
    (((main_ClientMessage (main_ClientMessage s ev1) ev2).reg.clients i).is_fullscreen = 0 ↔
      ((main_ClientMessage s ev1).reg.clients i).is_fullscreen ≠ 0) ∧
    (((main_ClientMessage (main_ClientMessage s ev1) ev2).reg.clients i).is_fullscreen = 0 ↔
      (s.reg.clients i).is_fullscreen = 0) := by
  have m1 : main_ClientMessage s ev1 = toggle_fullscreen s ev1.window :=
    main_ClientMessage_fullscreen h1 h1fs
  obtain ⟨f1, k1, k2, k3, k4, k5⟩ := toggle_fullscreen_flips hi hc hfirst hf
  have m2 : main_ClientMessage (toggle_fullscreen s ev1.window) ev2 =
      toggle_fullscreen (toggle_fullscreen s ev1.window) ev1.window := by
    rw [main_ClientMessage_fullscreen (by rw [k5]; exact h2) (by rw [k5]; exact h2fs), hw]
  obtain ⟨f2, _⟩ := toggle_fullscreen_flips k1 k2 k3 (by rw [k4]; exact hf)
  rw [m1, m2]
  refine ⟨f1, f2, ?_⟩
  rw [f2, Ne, f1, Ne, not_not]

theorem fullscreen_requests_toggle_witness :
    (((main_ClientMessage sample_wm (sample_fullscreen_request 1)).reg.clients 0).is_fullscreen = 0
      ↔ (sample_wm.reg.clients 0).is_fullscreen ≠ 0) ∧
    (((main_ClientMessage (main_ClientMessage sample_wm (sample_fullscreen_request 1))
        (sample_fullscreen_request 1)).reg.clients 0).is_fullscreen = 0 ↔
      ((main_ClientMessage sample_wm (sample_fullscreen_request 1)).reg.clients 0).is_fullscreen
        ≠ 0) ∧
    (((main_ClientMessage (main_ClientMessage sample_wm (sample_fullscreen_request 1))
        (sample_fullscreen_request 1)).reg.clients 0).is_fullscreen = 0 ↔
      (sample_wm.reg.clients 0).is_fullscreen = 0) :=
  fullscreen_requests_toggle sample_wm (sample_fullscreen_request 1) (sample_fullscreen_request 1)
    0 (by decide) (by decide) (by decide) (by decide) (by decide) (by decide) (by decide)
    (by decide) (by decide)

/-- C9 (as stated) fails: two consecutive requests to add the fullscreen
state (`l0 = 1`) for client 1 enter fullscreen and then leave it again, so the
second request changes the flag and the frame geometry; and a request to
remove the state (`l0 = 0`) from a client that is not fullscreen enters
fullscreen. -/
theorem fullscreen_request_not_idempotent_counterexample :
    ((main_ClientMessage sample_wm (sample_fullscreen_request 1)).reg.clients 0).is_fullscreen
      = 1 ∧
    ((main_ClientMessage sample_wm (sample_fullscreen_request 1)).X.attrs 2).map
      (fun a => (a.x, a.y, a.width, a.height)) = some (0, 0, 1920, 1080) ∧
    ((main_ClientMessage (main_ClientMessage sample_wm (sample_fullscreen_request 1))
        (sample_fullscreen_request 1)).reg.clients 0).is_fullscreen = 0 ∧
    ((main_ClientMessage (main_ClientMessage sample_wm (sample_fullscreen_request 1))
        (sample_fullscreen_request 1)).X.attrs 2).map
      (fun a => (a.x, a.y, a.width, a.height)) = some (100, 80, 640, 480) ∧
    (sample_wm.reg.clients 0).is_fullscreen = 0 ∧
    ((main_ClientMessage sample_wm (sample_fullscreen_request 0)).reg.clients 0).is_fullscreen
      = 1 := by
  decide

theorem is_fs_loop_one (cl : Nat → ClientState) (client : Window) (i n : Nat) :
    is_fs_loop cl client i n 1 = 1 := by
  induction n generalizing i with
  | zero => rfl
  | succ n ih =>
    rw [is_fs_loop]
    split_ifs <;> exact ih _

theorem is_fs_loop_found {cl : Nat → ClientState} {client : Window} {i n j : Nat} (acc : Int)
    (h1 : i ≤ j) (h2 : j < i + n) (hc : (cl j).client = client)
    (hfs : (cl j).is_fullscreen ≠ 0) :
    is_fs_loop cl client i n acc = 1 := by
  induction n generalizing i acc with
  | zero => omega
  | succ n ih =>
    rw [is_fs_loop]
    by_cases hji : j = i
    · subst hji
      rw [if_pos ⟨hc, hfs⟩]
      exact is_fs_loop_one _ _ _ _
    · exact ih _ (by omega) (by omega)

/-- The fullscreen guard where it fires: for every button-press event whose
parent frame (`resolve_frame`, the source's `parent_frame`) hosts a client
that some registry entry flags fullscreen, the button-press handler leaves
`start_ev` and `drag_state` unchanged and issues no `XGrabPointer`: it only
raises the frame and replays the click.  The guard does not look at the
session target, which is `subwindow` when no parent frame is resolved. -/
theorem fullscreen_target_starts_no_session (s : WM) (ev : XButtonEvent)
    (fa0 attr0 : XWindowAttributes)
    (h : ∃ i, i < s.reg.client_count ∧
      (s.reg.clients i).client = find_client_in_frame s.reg s.X (resolve_frame s ev) ∧
      (s.reg.clients i).is_fullscreen ≠ 0) :
    (main_ButtonPress s ev fa0 attr0).start_ev = s.start_ev ∧
    (main_ButtonPress s ev fa0 attr0).drag_state = s.drag_state ∧
    (main_ButtonPress s ev fa0 attr0).X.calls =
      s.X.calls ++
        (if resolve_frame s ev ≠ 0 ∧ resolve_frame s ev ≠ s.bar_win then
          [XCall.XRaiseWindow (resolve_frame s ev)] else []) ++
        [XCall.XAllowEvents AllowMode.ReplayPointer] ∧
    ∀ w, XCall.XGrabPointer w ∉
      (main_ButtonPress s ev fa0 attr0).X.calls.drop s.X.calls.length := by
  obtain ⟨i, hi, hc, hfs⟩ := h
  have hfl : press_is_fs s ev = 1 := by
    unfold press_is_fs
    exact is_fs_loop_found 0 (Nat.zero_le _) (by omega) hc hfs
  have hne : ¬ press_is_fs s ev = 0 := by rw [hfl]; decide
  have hcalls : (main_ButtonPress s ev fa0 attr0).start_ev = s.start_ev ∧
      (main_ButtonPress s ev fa0 attr0).drag_state = s.drag_state ∧
      (main_ButtonPress s ev fa0 attr0).X.calls =
        s.X.calls ++
          (if resolve_frame s ev ≠ 0 ∧ resolve_frame s ev ≠ s.bar_win then
            [XCall.XRaiseWindow (resolve_frame s ev)] else []) ++
          [XCall.XAllowEvents AllowMode.ReplayPointer] := by
    unfold main_ButtonPress
    dsimp only
    rw [if_neg (fun h => hne h.1), if_neg (fun h => hne h.1), if_neg (fun h => hne h.1)]
    refine ⟨rfl, rfl, ?_⟩
    split_ifs <;> simp [XServer.issue]
  refine ⟨hcalls.1, hcalls.2.1, hcalls.2.2, ?_⟩
  intro w
  rw [hcalls.2.2, List.append_assoc, List.drop_left]
  split_ifs <;> simp

/-- The same modifier + button-1 press on frame 2 starts a move session while
client 1 is not fullscreen, and none once it is. -/
theorem fullscreen_target_starts_no_session_witness :
    ((main_ButtonPress sample_wm sample_press_move XWindowAttributes.zero
        XWindowAttributes.zero).start_ev.window = 2 ∧
      XCall.XGrabPointer 50 ∈ (main_ButtonPress sample_wm sample_press_move
        XWindowAttributes.zero XWindowAttributes.zero).X.calls) ∧
    ((main_ButtonPress (toggle_fullscreen sample_wm 1) sample_press_move XWindowAttributes.zero
        XWindowAttributes.zero).start_ev = (toggle_fullscreen sample_wm 1).start_ev ∧
      (main_ButtonPress (toggle_fullscreen sample_wm 1) sample_press_move XWindowAttributes.zero
        XWindowAttributes.zero).drag_state = (toggle_fullscreen sample_wm 1).drag_state ∧
      (main_ButtonPress (toggle_fullscreen sample_wm 1) sample_press_move XWindowAttributes.zero
        XWindowAttributes.zero).X.calls =
        (toggle_fullscreen sample_wm 1).X.calls ++
          (if resolve_frame (toggle_fullscreen sample_wm 1) sample_press_move ≠ 0 ∧
              resolve_frame (toggle_fullscreen sample_wm 1) sample_press_move ≠
                (toggle_fullscreen sample_wm 1).bar_win then
            [XCall.XRaiseWindow (resolve_frame (toggle_fullscreen sample_wm 1) sample_press_move)]
            else []) ++
          [XCall.XAllowEvents AllowMode.ReplayPointer] ∧
      ∀ w, XCall.XGrabPointer w ∉
        (main_ButtonPress (toggle_fullscreen sample_wm 1) sample_press_move XWindowAttributes.zero
          XWindowAttributes.zero).X.calls.drop (toggle_fullscreen sample_wm 1).X.calls.length) :=
  ⟨by decide,
   fullscreen_target_starts_no_session (toggle_fullscreen sample_wm 1) sample_press_move
     XWindowAttributes.zero XWindowAttributes.zero ⟨0, by decide, by decide, by decide⟩⟩

/-! ## Lookup-miss and release claims -/

/-- C14 (amended): for every registry and every handle that is not the
client handle of any entry, `get_frame` and `find_frame_of_client` return 0;
and for every handle that is not the frame handle of any entry,
`find_client_in_frame` returns the first child that `XQueryTree` reports for
that window, and 0 when the query fails or reports no children. -/
theorem lookup_miss (r : Registry) (X : XServer) (h : Window) :
    ((∀ e ∈ r.entries, e.client ≠ h) → get_frame r h = 0 ∧ find_frame_of_client r h = 0) ∧
    ((∀ e ∈ r.entries, e.frame ≠ h) →
      find_client_in_frame r X h =
        (match X.query_tree X.calls h with
          | some (_, child :: _) => child
          | _ => 0) ∧
      (X.query_tree X.calls h = none → find_client_in_frame r X h = 0) ∧
      (∀ parent, X.query_tree X.calls h = some (parent, []) →
        find_client_in_frame r X h = 0)) := by
  constructor
  · intro hmiss
    have hn : first_match (fun e => e.client == h) r.clients 0 r.client_count = none :=
      first_match_none.mpr (fun e he => by simpa using hmiss e he)
    have : get_frame r h = 0 := by
      unfold get_frame
      rw [hn]
    exact ⟨this, this⟩
  · intro hmiss
    have hn : first_match (fun e => e.frame == h) r.clients 0 r.client_count = none :=
      first_match_none.mpr (fun e he => by simpa using hmiss e he)
    have hq : find_client_in_frame r X h =
        (match X.query_tree X.calls h with
          | some (_, child :: _) => child
          | _ => 0) := by
      unfold find_client_in_frame
      rw [hn]
    refine ⟨hq, ?_, ?_⟩
    · intro h0
      rw [hq, h0]
    · intro parent h0
      rw [hq, h0]

theorem lookup_miss_witness :
    (get_frame sample_wm.reg 9 = 0 ∧ find_frame_of_client sample_wm.reg 9 = 0) ∧
    find_client_in_frame sample_wm.reg sample_server 9 = 0 ∧
    find_client_in_frame sample_wm.reg sample_server 3 = 0 :=
  ⟨(lookup_miss sample_wm.reg sample_server 9).1 (by decide),
   ((lookup_miss sample_wm.reg sample_server 9).2 (by decide)).2.1 (by decide),
   ((lookup_miss sample_wm.reg sample_server 3).2 (by decide)).2.2 50 (by decide)⟩

/-- C14 (as stated) fails for `find_client_in_frame`: window 50 (the root) is
not the frame handle of any entry of the sample registry, yet the lookup
returns 51, the first child `XQueryTree` reports for it, not 0. -/
theorem lookup_miss_counterexample :
    sample_wm.reg.entries.map (fun e => (e.client, e.frame)) = [(1, 2)] ∧
    sample_server.query_tree sample_server.calls 50 = some (0, [51, 2, 3]) ∧
    find_client_in_frame sample_wm.reg sample_server 50 = 51 := by
  decide

/-- C15: for every dispatcher state with an active session
(`start_ev.window` non-zero), the button-release handler sets
`start_ev.window` to 0 and issues exactly one request, `XUngrabPointer`,
leaving everything else as it was; with no active session it returns the state
unchanged (no request at all); so a second release after a first changes
nothing and never ungrabs again. -/
theorem release_ends_session (s : WM) :
    (s.start_ev.window ≠ 0 →
      (main_ButtonRelease s).start_ev.window = 0 ∧
      (main_ButtonRelease s).X.calls = s.X.calls ++ [XCall.XUngrabPointer] ∧
      (main_ButtonRelease s).drag_state = s.drag_state ∧
      (main_ButtonRelease s).reg = s.reg ∧
      (main_ButtonRelease s).focus_window = s.focus_window) ∧
    (s.start_ev.window = 0 → main_ButtonRelease s = s) ∧
    main_ButtonRelease (main_ButtonRelease s) = main_ButtonRelease s := by
  refine ⟨?_, ?_, ?_⟩
  · intro h
    unfold main_ButtonRelease
    rw [if_pos h]
    exact ⟨rfl, rfl, rfl, rfl, rfl⟩
  · intro h
    unfold main_ButtonRelease
    rw [if_neg (by rw [h]; exact fun h2 => h2 rfl)]
  · by_cases h : s.start_ev.window = 0
    · have e : main_ButtonRelease s = s := by
        unfold main_ButtonRelease
        rw [if_neg (by rw [h]; exact fun h2 => h2 rfl)]
      rw [e, e]
    · have e : (main_ButtonRelease s).start_ev.window = 0 := by
        unfold main_ButtonRelease
        rw [if_pos h]
      generalize main_ButtonRelease s = s1 at e
      unfold main_ButtonRelease
      rw [if_neg (by rw [e]; exact fun h2 => h2 rfl)]

theorem release_ends_session_witness :
    ((main_ButtonRelease sample_resizing).start_ev.window = 0 ∧
      (main_ButtonRelease sample_resizing).X.calls =
        sample_resizing.X.calls ++ [XCall.XUngrabPointer] ∧
      (main_ButtonRelease sample_resizing).drag_state = sample_resizing.drag_state ∧
      (main_ButtonRelease sample_resizing).reg = sample_resizing.reg ∧
      (main_ButtonRelease sample_resizing).focus_window = sample_resizing.focus_window) ∧
    main_ButtonRelease sample_wm = sample_wm ∧
    (main_ButtonRelease (main_ButtonRelease sample_resizing)).X.calls =
      [XCall.XUngrabPointer] :=
  ⟨(release_ends_session sample_resizing).1 (by decide),
   (release_ends_session sample_wm).2.1 (by decide),
   by decide⟩

/-! ## Key-binding claims -/

theorem main_KeyPress_loop_index (ks st : Nat) (bs : List KeyBind) :
    ∀ (i j : Nat) (c : KeyCommand), (j, c) ∈ main_KeyPress_loop ks st i bs → i ≤ j := by
  induction bs with
  | nil => intro i j c h; simp [main_KeyPress_loop] at h
  | cons b bs ih =>
    intro i j c h
    rw [main_KeyPress_loop] at h
    split_ifs at h with h1 h2
    · simp at h
      omega
    · rcases List.mem_cons.mp h with h3 | h3
      · simp at h3
        omega
      · have := ih (i + 1) j c h3
        omega
    · have := ih (i + 1) j c h
      omega

theorem main_KeyPress_loop_mem (ks st : Nat) (pre post : List KeyBind) (b : KeyBind) :
    ∀ i : Nat,
      ((i + pre.length, key_command b.command) ∈ main_KeyPress_loop ks st i (pre ++ b :: post) ↔
        (ks = b.key ∧ st = b.mod) ∧
          ∀ x ∈ pre, (ks = x.key ∧ st = x.mod) → key_command x.command ≠ KeyCommand.quit) := by
  induction pre with
  | nil =>
    intro i
    simp only [List.length_nil, Nat.add_zero, List.nil_append, List.not_mem_nil, false_implies,
      implies_true, and_true]
    rw [main_KeyPress_loop]
    constructor
    · intro h
      by_contra hm
      rw [if_neg hm] at h
      have := main_KeyPress_loop_index ks st post (i + 1) i _ h
      omega
    · intro hm
      rw [if_pos hm]
      split_ifs with hq
      · rw [hq]
        exact List.mem_singleton.mpr rfl
      · exact List.mem_cons_self _ _
  | cons x pre ih =>
    intro i
    have hidx : i + (x :: pre).length = (i + 1) + pre.length := by
      simp only [List.length_cons]
      omega
    rw [hidx, List.cons_append, main_KeyPress_loop]
    have hne : (i + 1 + pre.length, key_command b.command) ≠ (i, key_command x.command) := by
      intro h
      have := congrArg Prod.fst h
      simp at this
      omega
    have hneq : (i + 1 + pre.length, key_command b.command) ≠ (i, KeyCommand.quit) := by
      intro h
      have := congrArg Prod.fst h
      simp at this
      omega
    by_cases hm : ks = x.key ∧ st = x.mod
    · rw [if_pos hm]
      by_cases hq : key_command x.command = KeyCommand.quit
      · rw [if_pos hq]
        constructor
        · intro h
          exact absurd (List.mem_singleton.mp h) hneq
        · intro h
          exact absurd hq (h.2 x (List.mem_cons_self _ _) hm)
      · rw [if_neg hq]
        constructor
        · intro h
          rcases List.mem_cons.mp h with h1 | h1
          · exact absurd h1 hne
          · obtain ⟨g1, g2⟩ := (ih (i + 1)).mp h1
            refine ⟨g1, fun y hy => ?_⟩
            rcases List.mem_cons.mp hy with rfl | hy
            · exact fun _ => hq
            · exact g2 y hy
        · intro h
          exact List.mem_cons_of_mem _
            ((ih (i + 1)).mpr ⟨h.1, fun y hy => h.2 y (List.mem_cons_of_mem _ hy)⟩)
    · rw [if_neg hm]
      constructor
      · intro h
        obtain ⟨g1, g2⟩ := (ih (i + 1)).mp h
        refine ⟨g1, fun y hy => ?_⟩
        rcases List.mem_cons.mp hy with rfl | hy
        · exact fun h2 => absurd h2 hm
        · exact g2 y hy
      · intro h
        exact (ih (i + 1)).mpr ⟨h.1, fun y hy => h.2 y (List.mem_cons_of_mem _ hy)⟩

theorem mod_filter_xor (state lock : Nat)
    (h : lock &&& (Mod1Mask ||| Mod4Mask ||| ShiftMask ||| ControlMask) = 0) :
    (state ^^^ lock) &&& (Mod1Mask ||| Mod4Mask ||| ShiftMask ||| ControlMask) =
      state &&& (Mod1Mask ||| Mod4Mask ||| ShiftMask ||| ControlMask) := by
  rw [Nat.and_xor_distrib_right, h, Nat.xor_zero]

/-- C11 (amended): for every key-press event and every configured binding
(the binding `b` at position `pre.length` of the bindings `pre ++ b :: post`),
the binding's command is dispatched if and only if the event's key symbol
equals the binding's key, the event's modifier state restricted to Mod1, Mod4,
Shift and Control is exactly equal to the binding's modifier mask, and no
earlier binding that matches the event is `quit` (which ends the process).
Toggling bits outside those four (the lock bits) in the event state never
changes what is dispatched, and a Mod1, Mod4, Shift or Control bit set in the
event but not in the binding prevents the match. -/
theorem key_binding_dispatch (pre post : List KeyBind) (b : KeyBind) (ev : XKeyEvent) :
    ((pre.length, key_command b.command) ∈ main_KeyPress (pre ++ b :: post) ev ↔
      (ev.keysym = b.key ∧
        ev.state &&& (Mod1Mask ||| Mod4Mask ||| ShiftMask ||| ControlMask) = b.mod) ∧
      ∀ x ∈ pre,
        (ev.keysym = x.key ∧
          ev.state &&& (Mod1Mask ||| Mod4Mask ||| ShiftMask ||| ControlMask) = x.mod) →
        key_command x.command ≠ KeyCommand.quit) ∧
    (∀ lock : Nat, lock &&& (Mod1Mask ||| Mod4Mask ||| ShiftMask ||| ControlMask) = 0 →
      main_KeyPress (pre ++ b :: post) { ev with state := ev.state ^^^ lock } =
        main_KeyPress (pre ++ b :: post) ev) ∧
    (∀ bit : Nat, bit = Mod1Mask ∨ bit = Mod4Mask ∨ bit = ShiftMask ∨ bit = ControlMask →
      ev.state &&& bit = bit → b.mod &&& bit = 0 →
      (pre.length, key_command b.command) ∉ main_KeyPress (pre ++ b :: post) ev) := by
  have hmem := main_KeyPress_loop_mem ev.keysym
    (ev.state &&& (Mod1Mask ||| Mod4Mask ||| ShiftMask ||| ControlMask)) pre post b 0
  rw [Nat.zero_add] at hmem
  refine ⟨hmem, ?_, ?_⟩
  · intro lock hlock
    unfold main_KeyPress
    simp only [mod_filter_xor ev.state lock hlock]
  · intro bit hbit hset hclear hin
    have hm : ev.state &&& (Mod1Mask ||| Mod4Mask ||| ShiftMask ||| ControlMask) = b.mod :=
      (hmem.mp hin).1.2
    have hf : (Mod1Mask ||| Mod4Mask ||| ShiftMask ||| ControlMask) &&& bit = bit := by
      rcases hbit with rfl | rfl | rfl | rfl <;> decide
    have hb0 : bit ≠ 0 := by
      rcases hbit with rfl | rfl | rfl | rfl <;> decide
    rw [← hm, Nat.and_assoc, hf, hset] at hclear
    exact hb0 hclear

/-- With NumLock on (`Mod2Mask` set), `Mod4 + Return` still fires the third
sample binding; with Shift held as well it does not. -/
theorem key_binding_dispatch_witness :
    (2, KeyCommand.spawn "xterm") ∈
      main_KeyPress sample_binds { keysym := XK_Return, state := Mod4Mask ||| Mod2Mask } ∧
    main_KeyPress sample_binds { keysym := XK_Return, state := Mod4Mask ^^^ Mod2Mask } =
      main_KeyPress sample_binds { keysym := XK_Return, state := Mod4Mask } ∧
    (2, KeyCommand.spawn "xterm") ∉
      main_KeyPress sample_binds { keysym := XK_Return, state := Mod4Mask ||| ShiftMask } :=
  ⟨(key_binding_dispatch
      [{ mod := Mod4Mask, key := XK_q, command := "quit" },
       { mod := Mod4Mask, key := XK_q, command := "xterm" }] []
      { mod := Mod4Mask, key := XK_Return, command := "xterm" }
      { keysym := XK_Return, state := Mod4Mask ||| Mod2Mask }).1.mpr
      ⟨by decide, by decide⟩,
   (key_binding_dispatch
      [{ mod := Mod4Mask, key := XK_q, command := "quit" },
       { mod := Mod4Mask, key := XK_q, command := "xterm" }] []
      { mod := Mod4Mask, key := XK_Return, command := "xterm" }
      { keysym := XK_Return, state := Mod4Mask }).2.1 Mod2Mask (by decide),
   (key_binding_dispatch
      [{ mod := Mod4Mask, key := XK_q, command := "quit" },
       { mod := Mod4Mask, key := XK_q, command := "xterm" }] []
      { mod := Mod4Mask, key := XK_Return, command := "xterm" }
      { keysym := XK_Return, state := Mod4Mask ||| ShiftMask }).2.2 ShiftMask
      (by decide) (by decide) (by decide)⟩

/-- C11 (as stated) fails after a matching `quit`: with the bindings
`Mod4+q quit` and `Mod4+q xterm` configured in that order, a `Mod4+q` press
matches both (same key, same modifier mask) but only `quit` is dispatched; the
process exits before the second binding is reached. -/
theorem key_binding_dispatch_counterexample :
    sample_binds.map (fun b => (b.mod, b.key, b.command)) =
      [(64, 113, "quit"), (64, 113, "xterm"), (64, 65293, "xterm")] ∧
    main_KeyPress sample_binds { keysym := XK_q, state := Mod4Mask } = [(0, KeyCommand.quit)] ∧
    (1, KeyCommand.spawn "xterm") ∉
      main_KeyPress sample_binds { keysym := XK_q, state := Mod4Mask } := by
  decide

/-! ## Window-type claims -/

theorem should_frame_false_iff (s : WM) (client : Window) :
    should_frame s client = false ↔
      ∃ t, s.X.window_type client = some t ∧
        (t = s.wmatoms NET_WM_WINDOW_TYPE_DOCK ∨ t = s.wmatoms NET_WM_WINDOW_TYPE_MENU ∨
         t = s.wmatoms NET_WM_WINDOW_TYPE_SPLASH ∨
         t = s.wmatoms NET_WM_WINDOW_TYPE_NOTIFICATION ∨
         t = s.wmatoms NET_WM_WINDOW_TYPE_UTILITY ∨
         t = s.wmatoms NET_WM_WINDOW_TYPE_DIALOG) := by
  unfold should_frame
  cases h : s.X.window_type client with
  | none => simp
  | some t =>
    simp only [Bool.not_eq_false', Bool.or_eq_true, beq_iff_eq, Option.some.injEq,
      exists_eq_left', or_assoc]

theorem update_client_list_effect (s : WM) :
    (update_client_list s).reg = s.reg ∧
    (update_client_list s).focus_window = s.focus_window ∧
    ∃ rest, (update_client_list s).X.calls = s.X.calls ++ rest ∧
      ∀ c ∈ rest, ∃ d, c = XCall.XChangeProperty s.root (s.wmatoms NET_CLIENT_LIST) d := by
  unfold update_client_list
  cases h : s.X.query_tree s.X.calls s.root with
  | none => exact ⟨rfl, rfl, [], by simp, by simp⟩
  | some pc =>
    obtain ⟨parent, children⟩ := pc
    refine ⟨rfl, rfl, [XCall.XChangeProperty s.root (s.wmatoms NET_CLIENT_LIST) children], rfl, ?_⟩
    intro c hc
    exact ⟨children, List.mem_singleton.mp hc⟩

theorem frame_window_unframed {s : WM} {client : Window} {a : XWindowAttributes}
    (hc : client ≠ 0) (ha : s.X.attrs client = some a) (hor : a.override_redirect = 0)
    (hsf : should_frame s client = false) :
    (frame_window s client).reg = add_client s.reg client 0 ∧
    ∃ rest, (frame_window s client).X.calls = s.X.calls ++ XCall.XMapWindow client :: rest ∧
      ∀ c ∈ rest, ∃ d, c = XCall.XChangeProperty s.root (s.wmatoms NET_CLIENT_LIST) d := by
  have e : frame_window s client =
      update_client_list
        { s with reg := add_client s.reg client 0, X := s.X.issue (.XMapWindow client) } := by
    unfold frame_window
    rw [if_neg hc]
    simp only [ha, hor, hsf]
    simp
  obtain ⟨h1, _, rest, h3, h4⟩ := update_client_list_effect
    { s with reg := add_client s.reg client 0, X := s.X.issue (.XMapWindow client) }
  rw [e]
  refine ⟨h1, rest, ?_, h4⟩
  rw [h3]
  simp [XServer.issue]

theorem frame_window_framed {s : WM} {client : Window} {a : XWindowAttributes}
    (hc : client ≠ 0) (ha : s.X.attrs client = some a) (hor : a.override_redirect = 0)
    (hsf : should_frame s client = true) :
    (frame_window s client).reg = add_client s.reg client s.X.next_id ∧
    (∃ x y w h, XCall.XCreateSimpleWindow s.root x y w h s.X.next_id ∈
      (frame_window s client).X.calls) ∧
    XCall.XReparentWindow client s.X.next_id 0 TITLE_HEIGHT ∈ (frame_window s client).X.calls ∧
    XCall.XMapWindow s.X.next_id ∈ (frame_window s client).X.calls := by
  have e : ∃ X10 : XServer,
      frame_window s client =
        update_client_list { s with reg := add_client s.reg client s.X.next_id, X := X10 } ∧
      (∃ x y w h, XCall.XCreateSimpleWindow s.root x y w h s.X.next_id ∈ X10.calls) ∧
      XCall.XReparentWindow client s.X.next_id 0 TITLE_HEIGHT ∈ X10.calls ∧
      XCall.XMapWindow s.X.next_id ∈ X10.calls := by
    unfold frame_window
    rw [if_neg hc]
    simp only [ha, hor, hsf]
    by_cases hu : (decide (a.width < MIN_SIZE) || decide (a.height < MIN_SIZE)) = true
    · simp only [hu, if_true, ne_eq, not_true_eq_false, if_false, Bool.true_eq_false]
      refine ⟨_, rfl,
        ⟨(s.X.screen_width - DEFAULT_WINDOW_WIDTH).tdiv 2,
         (if (s.X.screen_height - DEFAULT_WINDOW_HEIGHT).tdiv 2 < BAR_HEIGHT then BAR_HEIGHT
            else (s.X.screen_height - DEFAULT_WINDOW_HEIGHT).tdiv 2),
         DEFAULT_WINDOW_WIDTH, DEFAULT_WINDOW_HEIGHT + TITLE_HEIGHT, ?_⟩, ?_, ?_⟩ <;>
        simp [XCreateSimpleWindow, XResizeWindow, XServer.issue, XServer.configure]
    · simp only [hu, if_true, ne_eq, not_true_eq_false, if_false, Bool.true_eq_false]
      refine ⟨_, rfl,
        ⟨(s.X.screen_width - a.width).tdiv 2,
         (if (s.X.screen_height - a.height).tdiv 2 < BAR_HEIGHT then BAR_HEIGHT
            else (s.X.screen_height - a.height).tdiv 2),
         a.width, a.height + TITLE_HEIGHT, ?_⟩, ?_, ?_⟩ <;>
        simp [XCreateSimpleWindow, XResizeWindow, XServer.issue, XServer.configure]
  obtain ⟨X10, e1, ⟨x, y, w, h, e2⟩, e3, e4⟩ := e
  obtain ⟨h1, _, rest, h3, _⟩ := update_client_list_effect
    { s with reg := add_client s.reg client s.X.next_id, X := X10 }
  have hsub : ∀ c, c ∈ X10.calls → c ∈ (frame_window s client).X.calls := by
    intro c hc2
    rw [e1, h3]
    exact List.mem_append_left _ hc2
  refine ⟨by rw [e1]; exact h1, ⟨x, y, w, h, hsub _ e2⟩, hsub _ e3, hsub _ e4⟩

/-- C12: for a window that `frame_window` takes on (non-null, attributes
fetched, not override-redirect; the server hands out non-null ids):
when its declared window type is one of dock, menu, splash, notification,
utility or dialog, the window is only mapped (no frame is created; the one
other request may be the client-list refresh) and registered by
`add_client(client, 0)`, the null frame; for every other declared type, and
when the window-type property is absent or cannot be fetched, a frame window
is created, the client is reparented into it, and the client is registered by
`add_client(client, frame)` with that non-null frame.  When the registry has
room, the new last entry holds exactly that client and frame. -/
theorem frame_window_by_type (s : WM) (client : Window) (a : XWindowAttributes)
    (hc : client ≠ 0) (ha : s.X.attrs client = some a) (hor : a.override_redirect = 0)
    (hid : s.X.next_id ≠ 0) :
    ((∃ t, s.X.window_type client = some t ∧
        (t = s.wmatoms NET_WM_WINDOW_TYPE_DOCK ∨ t = s.wmatoms NET_WM_WINDOW_TYPE_MENU ∨
         t = s.wmatoms NET_WM_WINDOW_TYPE_SPLASH ∨
         t = s.wmatoms NET_WM_WINDOW_TYPE_NOTIFICATION ∨
         t = s.wmatoms NET_WM_WINDOW_TYPE_UTILITY ∨
         t = s.wmatoms NET_WM_WINDOW_TYPE_DIALOG)) →
      (frame_window s client).reg = add_client s.reg client 0 ∧
      (s.reg.client_count < MAX_CLIENTS →
        (frame_window s client).reg.entries = s.reg.entries ++
          [{ s.reg.clients s.reg.client_count with
             client := client, frame := 0, is_fullscreen := 0 }]) ∧
      ∃ rest, (frame_window s client).X.calls = s.X.calls ++ XCall.XMapWindow client :: rest ∧
        ∀ c ∈ rest, ∃ d, c = XCall.XChangeProperty s.root (s.wmatoms NET_CLIENT_LIST) d) ∧
    ((¬ ∃ t, s.X.window_type client = some t ∧
        (t = s.wmatoms NET_WM_WINDOW_TYPE_DOCK ∨ t = s.wmatoms NET_WM_WINDOW_TYPE_MENU ∨
         t = s.wmatoms NET_WM_WINDOW_TYPE_SPLASH ∨
         t = s.wmatoms NET_WM_WINDOW_TYPE_NOTIFICATION ∨
         t = s.wmatoms NET_WM_WINDOW_TYPE_UTILITY ∨
         t = s.wmatoms NET_WM_WINDOW_TYPE_DIALOG)) →
      (frame_window s client).reg = add_client s.reg client s.X.next_id ∧
      s.X.next_id ≠ 0 ∧
      (s.reg.client_count < MAX_CLIENTS →
        (frame_window s client).reg.entries = s.reg.entries ++
          [{ s.reg.clients s.reg.client_count with
             client := client, frame := s.X.next_id, is_fullscreen := 0 }]) ∧
      (∃ x y w h, XCall.XCreateSimpleWindow s.root x y w h s.X.next_id ∈
        (frame_window s client).X.calls) ∧
      XCall.XReparentWindow client s.X.next_id 0 TITLE_HEIGHT ∈
        (frame_window s client).X.calls ∧
      XCall.XMapWindow s.X.next_id ∈ (frame_window s client).X.calls) := by
  constructor
  · intro ht
    have hsf := (should_frame_false_iff s client).mpr ht
    obtain ⟨h1, h2⟩ := frame_window_unframed hc ha hor hsf
    refine ⟨h1, ?_, h2⟩
    intro hroom
    rw [h1, entries_add_client client 0 hroom]
  · intro ht
    have hsf : should_frame s client = true := by
      cases h : should_frame s client with
      | true => rfl
      | false => exact absurd ((should_frame_false_iff s client).mp h) ht
    obtain ⟨h1, h2, h3, h4⟩ := frame_window_framed hc ha hor hsf
    refine ⟨h1, hid, ?_, h2, h3, h4⟩
    intro hroom
    rw [h1, entries_add_client client s.X.next_id hroom]

/-- In the sample session window 3 is framed in frame 100 when it declares no
window type, and registered with the null frame when it declares the dock
type. -/
theorem frame_window_by_type_witness :
    ((frame_window sample_wm_dock 3).reg = add_client sample_wm_dock.reg 3 0 ∧
      get_frame (frame_window sample_wm_dock 3).reg 3 = 0 ∧
      (frame_window sample_wm_dock 3).reg.client_handles = [1, 3] ∧
      (frame_window sample_wm_dock 3).X.calls =
        [XCall.XMapWindow 3, XCall.XChangeProperty 50 306 [51, 2, 3]]) ∧
    ((frame_window sample_wm 3).reg = add_client sample_wm.reg 3 100 ∧
      get_frame (frame_window sample_wm 3).reg 3 = 100 ∧
      XCall.XReparentWindow 3 100 0 TITLE_HEIGHT ∈ (frame_window sample_wm 3).X.calls) :=
  ⟨⟨((frame_window_by_type sample_wm_dock 3
        { x := 0, y := 0, width := 40, height := 40, override_redirect := 0, map_state := 0 }
        (by decide) (by decide) (by decide) (by decide)).1
        ⟨308, by decide, Or.inl (by decide)⟩).1,
     by decide, by decide, by decide⟩,
   ((frame_window_by_type sample_wm 3
        { x := 0, y := 0, width := 40, height := 40, override_redirect := 0, map_state := 0 }
        (by decide) (by decide) (by decide) (by decide)).2
        (by decide)).1,
   by decide, by decide⟩

/-! ## Destroy-notification claims -/

theorem count_client_eraseP (c : Window) (l : List ClientState) :
    ((l.eraseP (fun e => e.client == c)).map (fun e => e.client)).count c =
      (l.map (fun e => e.client)).count c - 1 := by
  induction l with
  | nil => rfl
  | cons a l ih =>
    by_cases h : a.client = c
    · rw [List.eraseP_cons_of_pos (by simpa using h)]
      simp [List.count_cons, h]
    · rw [List.eraseP_cons_of_neg (by simpa using h)]
      simp only [List.map_cons, List.count_cons, ih]
      simp [h]

theorem main_DestroyNotify_framed {s : WM} {c : Window} (h : get_frame s.reg c ≠ 0) :
    main_DestroyNotify s c =
      update_client_list
        { s with reg := remove_client s.reg c,
                 X := s.X.issue (.XDestroyWindow (get_frame s.reg c)) } := by
  unfold main_DestroyNotify
  simp only [ne_eq, h, not_false_eq_true, if_true]

/-- C13 (amended): for every registry and every client handle c that exactly
one entry holds and that is registered with a decoration frame (`get_frame`
non-null), after the dispatcher handles a window-destroy notification for c
the registry contains no entry whose client handle is c; the other entries are
kept in order and the frame is destroyed. -/
theorem destroy_removes_framed_client (s : WM) (c : Window)
    (hone : s.reg.client_handles.count c = 1) (hframe : get_frame s.reg c ≠ 0) :
    (∀ e ∈ (main_DestroyNotify s c).reg.entries, e.client ≠ c) ∧
    (main_DestroyNotify s c).reg.entries = s.reg.entries.eraseP (fun e => e.client == c) ∧
    ∃ rest, (main_DestroyNotify s c).X.calls =
      s.X.calls ++ XCall.XDestroyWindow (get_frame s.reg c) :: rest := by
  obtain ⟨h1, _, rest, h3, _⟩ := update_client_list_effect
    { s with reg := remove_client s.reg c,
             X := s.X.issue (.XDestroyWindow (get_frame s.reg c)) }
  have hreg : (main_DestroyNotify s c).reg = remove_client s.reg c := by
    rw [main_DestroyNotify_framed hframe]
    exact h1
  have hent : (main_DestroyNotify s c).reg.entries =
      s.reg.entries.eraseP (fun e => e.client == c) := by
    rw [hreg, entries_remove_client]
  refine ⟨?_, hent, rest, ?_⟩
  · intro e he hc
    have hcount := count_client_eraseP c s.reg.entries
    have h0 : s.reg.client_handles.count c = (s.reg.entries.map (fun e => e.client)).count c :=
      rfl
    rw [← h0, hone] at hcount
    rw [hent] at he
    have hmem : c ∈ (s.reg.entries.eraseP (fun e => e.client == c)).map (fun e => e.client) :=
      List.mem_map.mpr ⟨e, he, hc⟩
    have := List.count_pos_iff.mpr hmem
    omega
  · rw [main_DestroyNotify_framed hframe, h3]
    simp [XServer.issue]

theorem destroy_removes_framed_client_witness :
    (∀ e ∈ (main_DestroyNotify sample_wm3 5).reg.entries, e.client ≠ 5) ∧
    (main_DestroyNotify sample_wm3 5).reg.entries =
      sample_wm3.reg.entries.eraseP (fun e => e.client == 5) ∧
    ∃ rest, (main_DestroyNotify sample_wm3 5).X.calls =
      sample_wm3.X.calls ++ XCall.XDestroyWindow (get_frame sample_wm3.reg 5) :: rest :=
  destroy_removes_framed_client sample_wm3 5 (by decide) (by decide)

/-- C13 (as stated) fails.  A client registered with the null frame is not
torn down: for client 7 registered as `(7, 0)`, `get_frame` is 0, the handler
takes the fallback scan for an entry whose frame is window 7, finds none, and
the entry stays.  And when two entries hold client 1, only the first is
removed. -/
theorem destroy_keeps_unframed_client_counterexample :
    (main_DestroyNotify { sample_wm with reg := run_calls Registry.empty [.register 7 0] }
        7).reg.entries.map (fun e => (e.client, e.frame)) = [(7, 0)] ∧
    (main_DestroyNotify
        { sample_wm with reg := run_calls Registry.empty [.register 1 2, .register 1 3] }
        1).reg.entries.map (fun e => (e.client, e.frame)) = [(1, 3)] := by
  decide

theorem first_match_split {p : ClientState → Bool} {r : Registry} {i : Nat}
    (h : first_match p r.clients 0 r.client_count = some i) :
    p (r.clients i) = true ∧
      ∃ l₁ l₂, r.entries = l₁ ++ r.clients i :: l₂ ∧ ∀ x ∈ l₁, p x = false := by
  have hf : r.entries.find? p = some (r.clients i) := by
    unfold Registry.entries
    rw [← first_match_eq_find, h]
    rfl
  obtain ⟨hp, l₁, l₂, hl, hx⟩ := List.find?_eq_some.mp hf
  exact ⟨hp, l₁, l₂, hl, fun x hx2 => by simpa using hx x hx2⟩

/-- C17: for every registry satisfying the uniqueness invariant (client
handles pairwise distinct, non-null frame handles pairwise distinct) and
every window f that is the frame handle of some entry and not a registered
client handle, after the dispatcher handles a window-destroy notification for
f the registry contains no entry whose frame handle is f, and every other
entry is kept unchanged and in order. -/
theorem destroy_frame_reconciles (s : WM) (f : Window)
    (hclients : s.reg.client_handles.Nodup) (hframes : s.reg.frame_handles.Nodup)
    (hf0 : f ≠ 0) (hmem : ∃ e ∈ s.reg.entries, e.frame = f)
    (hnc : f ∉ s.reg.client_handles) :
    (∀ e ∈ (main_DestroyNotify s f).reg.entries, e.frame ≠ f) ∧
    ∃ l₁ e l₂, s.reg.entries = l₁ ++ e :: l₂ ∧ e.frame = f ∧
      (main_DestroyNotify s f).reg.entries = l₁ ++ l₂ := by
  have hgf : get_frame s.reg f = 0 := by
    have hn : first_match (fun e => e.client == f) s.reg.clients 0 s.reg.client_count = none :=
      first_match_none.mpr (fun e he => by
        have : e.client ≠ f := fun h => hnc (List.mem_map.mpr ⟨e, he, h⟩)
        simpa using this)
    unfold get_frame
    rw [hn]
  obtain ⟨i, hi⟩ : ∃ i, first_match (fun e => e.frame == f) s.reg.clients 0 s.reg.client_count
      = some i := by
    cases h : first_match (fun e => e.frame == f) s.reg.clients 0 s.reg.client_count with
    | some i => exact ⟨i, rfl⟩
    | none =>
      obtain ⟨e, he, hef⟩ := hmem
      have := first_match_none.mp h e he
      simp [hef] at this
  have hreg : (main_DestroyNotify s f).reg = remove_client s.reg (s.reg.clients i).client := by
    unfold main_DestroyNotify
    simp only [hgf, ne_eq, not_true_eq_false, if_false, hi]
  obtain ⟨hp, l₁, l₂, hl, hx⟩ := first_match_split hi
  have hfi : (s.reg.clients i).frame = f := by simpa using hp
  have hnd : (l₁.map (fun e => e.client) ++
      (s.reg.clients i).client :: l₂.map (fun e => e.client)).Nodup := by
    have := hclients
    unfold Registry.client_handles at this
    rw [hl] at this
    simpa using this
  have hl₁ : ∀ x ∈ l₁, x.client ≠ (s.reg.clients i).client := by
    intro x hx2 hc
    have hdis := (List.nodup_append.mp hnd).2.2
    exact hdis (List.mem_map.mpr ⟨x, hx2, rfl⟩) (by rw [hc]; exact List.mem_cons_self _ _)
  have hent : (main_DestroyNotify s f).reg.entries = l₁ ++ l₂ := by
    rw [hreg, entries_remove_client, hl,
      List.eraseP_append_right _ (fun x hx2 => by simpa using hl₁ x hx2),
      List.eraseP_cons_of_pos (by simp)]
  have hfr : ((l₁.map (fun e => e.frame)).filter (fun f => f != 0) ++
      f :: (l₂.map (fun e => e.frame)).filter (fun f => f != 0)).Nodup := by
    have := hframes
    unfold Registry.frame_handles at this
    rw [hl] at this
    simpa [List.filter_cons, hfi, hf0] using this
  have hl₂ : ∀ x ∈ l₂, x.frame ≠ f := by
    intro x hx2 hc
    have h2 := (List.nodup_cons.mp (List.nodup_append.mp hfr).2.1).1
    exact h2 (List.mem_filter.mpr ⟨List.mem_map.mpr ⟨x, hx2, hc⟩, by simpa using hf0⟩)
  refine ⟨?_, l₁, s.reg.clients i, l₂, hl, hfi, hent⟩
  intro e he
  rw [hent] at he
  rcases List.mem_append.mp he with h1 | h1
  · simpa using hx e h1
  · exact hl₂ e h1

theorem destroy_frame_reconciles_witness :
    ((∀ e ∈ (main_DestroyNotify sample_wm3 4).reg.entries, e.frame ≠ 4) ∧
      ∃ l₁ e l₂, sample_wm3.reg.entries = l₁ ++ e :: l₂ ∧ e.frame = 4 ∧
        (main_DestroyNotify sample_wm3 4).reg.entries = l₁ ++ l₂) ∧
    sample_wm3.reg.entries.map (fun e => (e.client, e.frame)) = [(1, 2), (5, 4), (7, 6)] ∧
    (main_DestroyNotify sample_wm3 4).reg.entries.map (fun e => (e.client, e.frame)) =
      [(1, 2), (7, 6)] :=
  ⟨destroy_frame_reconciles sample_wm3 4 (by decide) (by decide) (by decide)
    ⟨{ ClientState.zero with client := 5, frame := 4 }, by decide, by decide⟩ (by decide),
   by decide, by decide⟩

/-! ## Picker-menu claims -/

theorem menu_row_of_y {k : Nat} {y : Int} (h1 : 30 * (k : Int) ≤ y) (h2 : y < 30 * ((k : Int) + 1)) :
    y.tdiv MENU_ITEM_H = (k : Int) := by
  have hy : 0 ≤ y := by omega
  unfold MENU_ITEM_H
  rw [Int.tdiv_eq_ediv hy (by decide)]
  omega

theorem menu_motion_selects (hidden : List HiddenWindow) (menu : Window) (m : MenuLoop)
    {k : Nat} {y : Int} (hk : k < hidden.length)
    (h1 : 30 * (k : Int) ≤ y) (h2 : y < 30 * ((k : Int) + 1)) :
    (menu_event hidden menu m (.MotionNotify y)).selected = (k : Int) ∧
    (menu_event hidden menu m (.MotionNotify y)).done = m.done ∧
    (menu_event hidden menu m (.MotionNotify y)).wm.reg = m.wm.reg ∧
    (menu_event hidden menu m (.MotionNotify y)).wm.focus_window = m.wm.focus_window ∧
    ((menu_event hidden menu m (.MotionNotify y)).wm.X.calls = m.wm.X.calls ∨
      (menu_event hidden menu m (.MotionNotify y)).wm.X.calls =
        m.wm.X.calls ++ [XCall.XClearArea menu]) := by
  have hrow := menu_row_of_y h1 h2
  unfold menu_event
  simp only [hrow]
  by_cases hs : (k : Int) = m.selected
  · have : ¬ ((k : Int) ≥ 0 ∧ (k : Int) < hidden.length ∧ (k : Int) ≠ m.selected) :=
      fun h => h.2.2 hs
    rw [if_neg this]
    exact ⟨hs.symm, rfl, rfl, rfl, Or.inl rfl⟩
  · have : (k : Int) ≥ 0 ∧ (k : Int) < hidden.length ∧ (k : Int) ≠ m.selected :=
      ⟨by omega, by omega, hs⟩
    rw [if_pos this]
    exact ⟨rfl, rfl, rfl, rfl, Or.inr rfl⟩

theorem menu_press_selected (hidden : List HiddenWindow) (menu : Window) (m : MenuLoop)
    {k : Nat} (hk : k < hidden.length) (hs : m.selected = (k : Int)) :
    (menu_event hidden menu m .ButtonPress).done = 1 ∧
    (menu_event hidden menu m .ButtonPress).wm.X.calls =
      m.wm.X.calls ++
        [XCall.XMapWindow (hidden.get ⟨k, hk⟩).frame,
         XCall.XRaiseWindow (hidden.get ⟨k, hk⟩).frame,
         XCall.XSetInputFocus
           (if (menu_event hidden menu m .ButtonPress).wm.focus_window ≠ 0 then
              (menu_event hidden menu m .ButtonPress).wm.focus_window
            else (hidden.get ⟨k, hk⟩).frame)] ∧
    (∀ i, first_match (fun e => e.frame == (hidden.get ⟨k, hk⟩).frame) m.wm.reg.clients 0
        m.wm.reg.client_count = some i →
      (menu_event hidden menu m .ButtonPress).wm.focus_window = (m.wm.reg.clients i).client) := by
  have hsel : m.selected ≥ 0 ∧ m.selected < hidden.length := by
    rw [hs]
    exact ⟨by omega, by omega⟩
  have hget : (hidden.getD m.selected.toNat { frame := 0, name := "" }) = hidden.get ⟨k, hk⟩ := by
    rw [hs, Int.toNat_ofNat, List.getD_eq_getElem _ _ hk]
    rfl
  unfold menu_event
  simp only [if_pos hsel, hget]
  refine ⟨trivial, ?_, ?_⟩
  · simp [XServer.issue]
  · intro i hi
    simp only [find_client_in_frame, XServer.issue, hi]

theorem menu_loop_done (hidden : List HiddenWindow) (menu : Window) (m : MenuLoop)
    (evs : List MenuEvent) (h : m.done ≠ 0) : menu_loop hidden menu m evs = m := by
  cases evs with
  | nil => rfl
  | cons ev evs => rw [menu_loop, if_pos h]

/-- C16: in the picker menu listing the hidden windows `hidden` (any
non-empty list, so 1 <= n <= 64), for every index k < n and every pointer y
inside row k (30*k <= y < 30*(k+1)), a pointer-motion event at y followed by a
button press, read by the running loop, makes the loop map and raise exactly
the k-th listed window and no other window, give the input focus to the client
that window hosts (`focus_window`; the window itself when there is none), and
set `done`, so that no later event is read.  The only other request is the
`XClearArea` of the menu when the selection changes. -/
theorem menu_pointer_selection (hidden : List HiddenWindow) (menu : Window) (m : MenuLoop)
    (k : Nat) (y : Int) (later : List MenuEvent)
    (hk : k < hidden.length) (h1 : 30 * (k : Int) ≤ y) (h2 : y < 30 * ((k : Int) + 1))
    (hrun : m.done = 0) :
    ∃ (m2 : MenuLoop) (pre : List XCall),
      menu_loop hidden menu m (.MotionNotify y :: .ButtonPress :: later) = m2 ∧
      m2.done = 1 ∧
      (pre = [] ∨ pre = [XCall.XClearArea menu]) ∧
      m2.wm.X.calls = m.wm.X.calls ++ pre ++
        [XCall.XMapWindow (hidden.get ⟨k, hk⟩).frame,
         XCall.XRaiseWindow (hidden.get ⟨k, hk⟩).frame,
         XCall.XSetInputFocus
           (if m2.wm.focus_window ≠ 0 then m2.wm.focus_window
            else (hidden.get ⟨k, hk⟩).frame)] ∧
      (∀ w, XCall.XMapWindow w ∈ m2.wm.X.calls.drop m.wm.X.calls.length →
        w = (hidden.get ⟨k, hk⟩).frame) ∧
      (∀ i, first_match (fun e => e.frame == (hidden.get ⟨k, hk⟩).frame) m.wm.reg.clients 0
          m.wm.reg.client_count = some i →
        m2.wm.focus_window = (m.wm.reg.clients i).client) := by
  obtain ⟨s1, s2, s3, _, s5⟩ := menu_motion_selects hidden menu m hk h1 h2
  obtain ⟨p1, p2, p3⟩ :=
    menu_press_selected hidden menu (menu_event hidden menu m (.MotionNotify y)) hk s1
  have hloop : menu_loop hidden menu m (.MotionNotify y :: .ButtonPress :: later) =
      menu_event hidden menu (menu_event hidden menu m (.MotionNotify y)) .ButtonPress := by
    rw [menu_loop, if_neg (by rw [hrun]; exact fun h => h rfl), menu_loop,
      if_neg (by rw [s2, hrun]; exact fun h => h rfl)]
    exact menu_loop_done _ _ _ _ (by rw [p1]; decide)
  have hcalls : ∀ pre : List XCall,
      (menu_event hidden menu m (.MotionNotify y)).wm.X.calls = m.wm.X.calls ++ pre →
      (pre = [] ∨ pre = [XCall.XClearArea menu]) →
      ∃ (m2 : MenuLoop) (pre : List XCall),
        menu_loop hidden menu m (.MotionNotify y :: .ButtonPress :: later) = m2 ∧
        m2.done = 1 ∧
        (pre = [] ∨ pre = [XCall.XClearArea menu]) ∧
        m2.wm.X.calls = m.wm.X.calls ++ pre ++
          [XCall.XMapWindow (hidden.get ⟨k, hk⟩).frame,
           XCall.XRaiseWindow (hidden.get ⟨k, hk⟩).frame,
           XCall.XSetInputFocus
             (if m2.wm.focus_window ≠ 0 then m2.wm.focus_window
              else (hidden.get ⟨k, hk⟩).frame)] ∧
        (∀ w, XCall.XMapWindow w ∈ m2.wm.X.calls.drop m.wm.X.calls.length →
          w = (hidden.get ⟨k, hk⟩).frame) ∧
        (∀ i, first_match (fun e => e.frame == (hidden.get ⟨k, hk⟩).frame) m.wm.reg.clients 0
            m.wm.reg.client_count = some i →
          m2.wm.focus_window = (m.wm.reg.clients i).client) := by
    intro pre hpre hcase
    have hc2 : (menu_event hidden menu (menu_event hidden menu m (.MotionNotify y))
        .ButtonPress).wm.X.calls = m.wm.X.calls ++ pre ++
          [XCall.XMapWindow (hidden.get ⟨k, hk⟩).frame,
           XCall.XRaiseWindow (hidden.get ⟨k, hk⟩).frame,
           XCall.XSetInputFocus
             (if (menu_event hidden menu (menu_event hidden menu m (.MotionNotify y))
                  .ButtonPress).wm.focus_window ≠ 0 then
                (menu_event hidden menu (menu_event hidden menu m (.MotionNotify y))
                  .ButtonPress).wm.focus_window
              else (hidden.get ⟨k, hk⟩).frame)] := by
      rw [p2, hpre]
    refine ⟨_, pre, hloop, p1, hcase, hc2, ?_, ?_⟩
    · intro w hw
      rw [hc2, List.append_assoc, List.drop_left] at hw
      rcases hcase with rfl | rfl <;> simpa using hw
    · intro i hi
      have := p3 i (by rw [s3]; exact hi)
      rw [s3] at this
      exact this
  rcases s5 with h | h
  · exact hcalls [] (by rw [h, List.append_nil]) (Or.inl rfl)
  · exact hcalls [XCall.XClearArea menu] h (Or.inr rfl)

/-- Three hidden windows are listed; the pointer moves to y = 45, in the
second row, and the button is pressed: frame 4 alone is mapped and raised,
its client 5 gets the focus, and the loop ends. -/
theorem menu_pointer_selection_witness :
    (∃ (m2 : MenuLoop) (pre : List XCall),
      menu_loop sample_hidden 200 (MenuLoop.start sample_wm3)
        (.MotionNotify 45 :: .ButtonPress :: [.MotionNotify 5, .ButtonPress]) = m2 ∧
      m2.done = 1 ∧
      (pre = [] ∨ pre = [XCall.XClearArea 200]) ∧
      m2.wm.X.calls = (MenuLoop.start sample_wm3).wm.X.calls ++ pre ++
        [XCall.XMapWindow (sample_hidden.get ⟨1, by decide⟩).frame,
         XCall.XRaiseWindow (sample_hidden.get ⟨1, by decide⟩).frame,
         XCall.XSetInputFocus
           (if m2.wm.focus_window ≠ 0 then m2.wm.focus_window
            else (sample_hidden.get ⟨1, by decide⟩).frame)] ∧
      (∀ w, XCall.XMapWindow w ∈
          m2.wm.X.calls.drop (MenuLoop.start sample_wm3).wm.X.calls.length →
        w = (sample_hidden.get ⟨1, by decide⟩).frame) ∧
      (∀ i, first_match (fun e => e.frame == (sample_hidden.get ⟨1, by decide⟩).frame)
          (MenuLoop.start sample_wm3).wm.reg.clients 0
          (MenuLoop.start sample_wm3).wm.reg.client_count = some i →
        m2.wm.focus_window = ((MenuLoop.start sample_wm3).wm.reg.clients i).client)) ∧
    (menu_loop sample_hidden 200 (MenuLoop.start sample_wm3)
        [.MotionNotify 45, .ButtonPress, .MotionNotify 5, .ButtonPress]).wm.X.calls =
      [XCall.XClearArea 200, XCall.XMapWindow 4, XCall.XRaiseWindow 4,
       XCall.XSetInputFocus 5] ∧
    (menu_loop sample_hidden 200 (MenuLoop.start sample_wm3)
        [.MotionNotify 45, .ButtonPress, .MotionNotify 5, .ButtonPress]).wm.focus_window = 5 :=
  ⟨menu_pointer_selection sample_hidden 200 (MenuLoop.start sample_wm3) 1 45
      [.MotionNotify 5, .ButtonPress] (by decide) (by decide) (by decide) (by decide),
   by decide, by decide⟩

/-- C18 (amended): the picker menu's event loop ends on a button click only
when an item is selected: for every loop state, handling a button-press event
sets the `done` flag when `0 <= selected < count`, and leaves the whole loop
state unchanged (`done` not set, no request issued) otherwise, in particular
in the entry state, where no item is selected yet; an Escape or q key press
sets `done` in every state. -/
theorem menu_press_ends_only_when_selected (hidden : List HiddenWindow) (menu : Window)
    (m : MenuLoop) :
    (m.selected ≥ 0 ∧ m.selected < hidden.length →
      (menu_event hidden menu m .ButtonPress).done = 1) ∧
    (¬ (m.selected ≥ 0 ∧ m.selected < hidden.length) →
      menu_event hidden menu m .ButtonPress = m) ∧
    (∀ s : WM, menu_event hidden menu (MenuLoop.start s) .ButtonPress = MenuLoop.start s ∧
      (MenuLoop.start s).done = 0) ∧
    (∀ ks, ks = XK_Escape ∨ ks = XK_q → (menu_event hidden menu m (.KeyPress ks)).done = 1) := by
  refine ⟨?_, ?_, ?_, ?_⟩
  · intro h
    unfold menu_event
    simp only [if_pos h]
  · intro h
    unfold menu_event
    simp only [if_neg h]
  · intro s
    have h : ¬ ((MenuLoop.start s).selected ≥ 0 ∧ (MenuLoop.start s).selected < hidden.length) := by
      intro h2
      have := h2.1
      simp [MenuLoop.start] at this
    refine ⟨?_, rfl⟩
    unfold menu_event
    simp only [if_neg h]
  · intro ks h
    unfold menu_event
    simp only [if_pos h]

theorem menu_press_ends_only_when_selected_witness :
    (menu_event sample_hidden 200
        (menu_event sample_hidden 200 (MenuLoop.start sample_wm3) (.MotionNotify 45))
        .ButtonPress).done = 1 ∧
    menu_event sample_hidden 200
        (menu_event sample_hidden 200 (MenuLoop.start sample_wm3) (.MotionNotify 500))
        .ButtonPress =
      menu_event sample_hidden 200 (MenuLoop.start sample_wm3) (.MotionNotify 500) ∧
    (menu_event sample_hidden 200 (MenuLoop.start sample_wm3) (.KeyPress XK_Escape)).done = 1 :=
  ⟨(menu_press_ends_only_when_selected sample_hidden 200
      (menu_event sample_hidden 200 (MenuLoop.start sample_wm3) (.MotionNotify 45))).1
      (by decide),
   (menu_press_ends_only_when_selected sample_hidden 200
      (menu_event sample_hidden 200 (MenuLoop.start sample_wm3) (.MotionNotify 500))).2.1
      (by decide),
   (menu_press_ends_only_when_selected sample_hidden 200 (MenuLoop.start sample_wm3)).2.2.2
      XK_Escape (Or.inl rfl)⟩

/-- C18 (as stated) fails: in the entry state of the loop (`selected = -1`,
no item selected yet) a button press leaves `done` 0 and issues no request, and
so does any number of further presses; the loop keeps waiting. -/
theorem menu_press_without_selection_counterexample :
    (MenuLoop.start sample_wm3).selected = -1 ∧
    (menu_event sample_hidden 200 (MenuLoop.start sample_wm3) .ButtonPress).done = 0 ∧
    (menu_loop sample_hidden 200 (MenuLoop.start sample_wm3)
        [.ButtonPress, .ButtonPress, .ButtonPress]).done = 0 ∧
    (menu_loop sample_hidden 200 (MenuLoop.start sample_wm3)
        [.ButtonPress, .ButtonPress, .ButtonPress]).wm.X.calls = [] := by
  decide

/-! ## Hint-refresh claims -/

theorem main_DestroyNotify_fallback_silent (s : WM) (w : Window)
    (h : get_frame s.reg w = 0) : (main_DestroyNotify s w).X = s.X := by
  unfold main_DestroyNotify
  simp only [h, ne_eq, not_true_eq_false, if_false]
  split <;> rfl

theorem cycle_windows_calls (s : WM) :
    (cycle_windows s).X.calls = s.X.calls ∨
    ∃ target focus, (cycle_windows s).focus_window = focus ∧
      (cycle_windows s).X.calls = s.X.calls ++
        [XCall.XMapWindow target, XCall.XRaiseWindow target, XCall.XRaiseWindow s.bar_win,
         XCall.XSetInputFocus focus] := by
  unfold cycle_windows
  split
  · exact Or.inl rfl
  · split
    · exact Or.inl rfl
    · rename_i target _
      exact Or.inr ⟨target, _, rfl, by simp [XServer.issue]⟩

/-- C19 (code at the failing input): in the sample session (client 1 in
frame 2) a window-destroy notification for frame 2 takes the reconciliation
fallback, which removes the entry of client 1 and issues no request at all, so
the client list is not refreshed; the sibling paths (destroy and unmap
teardown of client 1, framing and pass-through of window 3) each change the
registry and then set the client-list property on the root. -/
theorem destroy_fallback_skips_client_list :
    sample_wm.reg.entries.map (fun e => (e.client, e.frame)) = [(1, 2)] ∧
    (main_DestroyNotify sample_wm 2).reg.entries = [] ∧
    (main_DestroyNotify sample_wm 2).X.calls = [] ∧
    sets_property sample_wm.root (sample_wm.wmatoms NET_CLIENT_LIST) (main_DestroyNotify sample_wm 2).X.calls = false ∧
    ((main_DestroyNotify sample_wm 1).reg.entries = [] ∧
      sets_property sample_wm.root (sample_wm.wmatoms NET_CLIENT_LIST) (main_DestroyNotify sample_wm 1).X.calls = true) ∧
    ((main_UnmapNotify sample_wm 1 XWindowAttributes.zero).reg.entries = [] ∧
      sets_property sample_wm.root (sample_wm.wmatoms NET_CLIENT_LIST) (main_UnmapNotify sample_wm 1 XWindowAttributes.zero).X.calls
        = true) ∧
    ((frame_window sample_wm 3).reg.client_handles = [1, 3] ∧
      sets_property sample_wm.root (sample_wm.wmatoms NET_CLIENT_LIST) (frame_window sample_wm 3).X.calls = true) ∧
    ((frame_window sample_wm_dock 3).reg.client_handles = [1, 3] ∧
      sets_property sample_wm.root (sample_wm.wmatoms NET_CLIENT_LIST) (frame_window sample_wm_dock 3).X.calls = true) := by
  decide

/-- C20 (code at the failing input): in the sample session `cycle_windows`
maps and raises frame 2, gives the input focus to its client 1 and sets
`focus_window` to 1, and a picker-menu selection of the second row focuses
client 5 and sets `focus_window` to 5, but neither sets the active-window
property on the root; the sibling paths (pointer entering frame 2, an
activate-window message for client 1) transfer the focus the same way and do
set it. -/
theorem focus_transfer_skips_active_window :
    ((cycle_windows sample_wm).focus_window = 1 ∧
      (cycle_windows sample_wm).X.calls =
        [XCall.XMapWindow 2, XCall.XRaiseWindow 2, XCall.XRaiseWindow 51,
         XCall.XSetInputFocus 1] ∧
      sets_property sample_wm.root (sample_wm.wmatoms NET_ACTIVE_WINDOW) (cycle_windows sample_wm).X.calls = false) ∧
    ((menu_loop sample_hidden 200 (MenuLoop.start sample_wm3)
        [.MotionNotify 45, .ButtonPress]).wm.focus_window = 5 ∧
      (menu_loop sample_hidden 200 (MenuLoop.start sample_wm3)
        [.MotionNotify 45, .ButtonPress]).wm.X.calls =
        [XCall.XClearArea 200, XCall.XMapWindow 4, XCall.XRaiseWindow 4,
         XCall.XSetInputFocus 5] ∧
      sets_property sample_wm.root (sample_wm.wmatoms NET_ACTIVE_WINDOW) (menu_loop sample_hidden 200 (MenuLoop.start sample_wm3)
        [.MotionNotify 45, .ButtonPress]).wm.X.calls = false) ∧
    ((main_EnterNotify sample_wm 2).focus_window = 1 ∧
      (main_EnterNotify sample_wm 2).X.calls =
        [XCall.XSetInputFocus 1, XCall.XChangeProperty sample_wm.root (sample_wm.wmatoms NET_ACTIVE_WINDOW) [1]]) ∧
    ((main_ClientMessage sample_wm
        { window := 1, message_type := sample_wm.wmatoms NET_ACTIVE_WINDOW, l0 := 0, l1 := 0, l2 := 0 }).focus_window = 1 ∧
      (main_ClientMessage sample_wm
        { window := 1, message_type := sample_wm.wmatoms NET_ACTIVE_WINDOW, l0 := 0, l1 := 0, l2 := 0 }).X.calls =
        [XCall.XRaiseWindow 2, XCall.XSetInputFocus 1, XCall.XChangeProperty sample_wm.root (sample_wm.wmatoms NET_ACTIVE_WINDOW) [1]]) := by
  decide

/-! ## Drift and clamp claims -/

theorem motion_sequence_append (ps : List (Int × Int)) (p : Int × Int) :
    ∀ s : WM, motion_sequence s (ps ++ [p]) = main_MotionNotify (motion_sequence s ps) p.1 p.2 := by
  induction ps with
  | nil => intro s; rfl
  | cons q ps ih => intro s; exact ih (main_MotionNotify s q.1 q.2)

theorem motion_resize_calls_exact (s : WM) (x_root y_root : Int)
    (hs : s.start_ev.window ≠ 0) (hb : s.start_ev.button = Button3) :
    ∃ rest, (main_MotionNotify s x_root y_root).X.calls =
      s.X.calls ++ XCall.XMoveResizeWindow s.start_ev.window
        (resize_geometry s.drag_state x_root y_root).x
        (resize_geometry s.drag_state x_root y_root).y
        (resize_geometry s.drag_state x_root y_root).width
        (resize_geometry s.drag_state x_root y_root).height :: rest ∧
      ∀ c ∈ rest, ∃ w, c = XCall.XResizeWindow w
        (resize_geometry s.drag_state x_root y_root).width
        ((resize_geometry s.drag_state x_root y_root).height - TITLE_HEIGHT) := by
  unfold main_MotionNotify
  rw [if_neg hs, if_pos hb]
  dsimp only
  split_ifs
  · refine ⟨[_], by simp [XResizeWindow, XMoveResizeWindow, XServer.issue, XServer.configure]; rfl,
      ?_⟩
    intro c hc
    rw [List.mem_singleton] at hc
    exact ⟨_, hc⟩
  · exact ⟨[], by simp [XMoveResizeWindow, XServer.issue, XServer.configure], by simp⟩

theorem motion_move_calls (s : WM) (x_root y_root : Int)
    (hs : s.start_ev.window ≠ 0) (hb : s.start_ev.button = Button1) :
    (main_MotionNotify s x_root y_root).X.calls =
      s.X.calls ++ [XCall.XMoveWindow s.start_ev.window
        (s.drag_state.win_x + (x_root - s.drag_state.start_root_x))
        (s.drag_state.win_y + (y_root - s.drag_state.start_root_y))] ∧
    ∀ a, s.X.attrs s.start_ev.window = some a →
      (main_MotionNotify s x_root y_root).X.attrs s.start_ev.window =
        some { a with x := s.drag_state.win_x + (x_root - s.drag_state.start_root_x),
                      y := s.drag_state.win_y + (y_root - s.drag_state.start_root_y) } := by
  have hb3 : s.start_ev.button ≠ Button3 := by rw [hb]; decide
  unfold main_MotionNotify
  rw [if_neg hs, if_neg hb3, if_pos hb]
  refine ⟨rfl, ?_⟩
  intro a ha
  simp [XMoveWindow, XServer.issue, XServer.configure, ha]

theorem motion_other_button (s : WM) (x_root y_root : Int)
    (h3 : s.start_ev.button ≠ Button3) (h1 : s.start_ev.button ≠ Button1) :
    main_MotionNotify s x_root y_root = s := by
  unfold main_MotionNotify
  rw [if_neg h3, if_neg h1]
  split_ifs <;> rfl

theorem motion_first_request (s0 s : WM) (x_root y_root : Int)
    (hd : s.drag_state = s0.drag_state) (he : s.start_ev = s0.start_ev)
    (hs : s0.start_ev.window ≠ 0) :
    ((main_MotionNotify s x_root y_root).X.calls.drop s.X.calls.length).head? =
      if s0.start_ev.button = Button3 then
        some (XCall.XMoveResizeWindow s0.start_ev.window
          (resize_geometry s0.drag_state x_root y_root).x
          (resize_geometry s0.drag_state x_root y_root).y
          (resize_geometry s0.drag_state x_root y_root).width
          (resize_geometry s0.drag_state x_root y_root).height)
      else if s0.start_ev.button = Button1 then
        some (XCall.XMoveWindow s0.start_ev.window
          (s0.drag_state.win_x + (x_root - s0.drag_state.start_root_x))
          (s0.drag_state.win_y + (y_root - s0.drag_state.start_root_y)))
      else none := by
  have hs2 : s.start_ev.window ≠ 0 := by rw [he]; exact hs
  by_cases h3 : s0.start_ev.button = Button3
  · rw [if_pos h3]
    obtain ⟨rest, hc, _⟩ := motion_resize_calls_exact s x_root y_root hs2 (by rw [he]; exact h3)
    rw [hc, List.drop_left, hd, he]
    rfl
  · rw [if_neg h3]
    by_cases h1 : s0.start_ev.button = Button1
    · rw [if_pos h1]
      obtain ⟨hc, _⟩ := motion_move_calls s x_root y_root hs2 (by rw [he]; exact h1)
      rw [hc, List.drop_left, hd, he]
      rfl
    · rw [if_neg h1, motion_other_button s x_root y_root (by rw [he]; exact h3)
        (by rw [he]; exact h1)]
      simp

/-- C21: for every active session (`start_ev.window` non-zero) and every
sequence of pointer-motion events (`earlier`, then a last event at
`(x_root, y_root)`), the motion handler leaves `drag_state` (anchor pointer,
anchor geometry, resize direction) and `start_ev` unchanged; the geometry the
last event applies to the target is computed from that anchor and the last
pointer position alone: in Resize mode it is `resize_geometry` of the anchor
and the pointer, and in Move mode the target is placed at
`(win_x + (x_root - start_root_x), win_y + (y_root - start_root_y))`; and
after any other sequence of earlier events (`other`) the last event applies
the same request to the target. -/
theorem motion_no_drift (s : WM) (earlier other : List (Int × Int)) (x_root y_root : Int)
    (hs : s.start_ev.window ≠ 0) :
    ((motion_sequence s (earlier ++ [(x_root, y_root)])).drag_state = s.drag_state ∧
      (motion_sequence s (earlier ++ [(x_root, y_root)])).start_ev = s.start_ev) ∧
    (s.start_ev.button = Button3 →
      ∃ rest, (motion_sequence s (earlier ++ [(x_root, y_root)])).X.calls =
        (motion_sequence s earlier).X.calls ++
          XCall.XMoveResizeWindow s.start_ev.window
            (resize_geometry s.drag_state x_root y_root).x
            (resize_geometry s.drag_state x_root y_root).y
            (resize_geometry s.drag_state x_root y_root).width
            (resize_geometry s.drag_state x_root y_root).height :: rest ∧
        ∀ c ∈ rest, ∃ w, c = XCall.XResizeWindow w
          (resize_geometry s.drag_state x_root y_root).width
          ((resize_geometry s.drag_state x_root y_root).height - TITLE_HEIGHT)) ∧
    (s.start_ev.button = Button1 →
      (motion_sequence s (earlier ++ [(x_root, y_root)])).X.calls =
        (motion_sequence s earlier).X.calls ++
          [XCall.XMoveWindow s.start_ev.window
            (s.drag_state.win_x + (x_root - s.drag_state.start_root_x))
            (s.drag_state.win_y + (y_root - s.drag_state.start_root_y))] ∧
      ∀ a, (motion_sequence s earlier).X.attrs s.start_ev.window = some a →
        (motion_sequence s (earlier ++ [(x_root, y_root)])).X.attrs s.start_ev.window =
          some { a with x := s.drag_state.win_x + (x_root - s.drag_state.start_root_x),
                        y := s.drag_state.win_y + (y_root - s.drag_state.start_root_y) }) ∧
    ((motion_sequence s (earlier ++ [(x_root, y_root)])).X.calls.drop
        (motion_sequence s earlier).X.calls.length).head? =
      ((motion_sequence s (other ++ [(x_root, y_root)])).X.calls.drop
        (motion_sequence s other).X.calls.length).head? := by
  obtain ⟨d1, e1, _⟩ := motion_sequence_preserves_session earlier s
  obtain ⟨d2, e2, _⟩ := motion_sequence_preserves_session other s
  obtain ⟨d3, e3, _⟩ := motion_sequence_preserves_session (earlier ++ [(x_root, y_root)]) s
  have hw : (motion_sequence s earlier).start_ev.window ≠ 0 := by rw [e1]; exact hs
  refine ⟨⟨d3, e3⟩, ?_, ?_, ?_⟩
  · intro hb
    obtain ⟨rest, hc, hr⟩ := motion_resize_calls_exact (motion_sequence s earlier) x_root y_root
      hw (by rw [e1]; exact hb)
    rw [d1, e1] at hc
    rw [d1] at hr
    exact ⟨rest, by rw [motion_sequence_append]; exact hc, hr⟩
  · intro hb
    obtain ⟨hc, ha⟩ := motion_move_calls (motion_sequence s earlier) x_root y_root
      hw (by rw [e1]; exact hb)
    rw [d1, e1] at hc ha
    refine ⟨by rw [motion_sequence_append]; exact hc, ?_⟩
    intro a h
    rw [motion_sequence_append]
    exact ha a h
  · rw [motion_sequence_append, motion_sequence_append,
      motion_first_request s (motion_sequence s earlier) x_root y_root d1 e1 hs,
      motion_first_request s (motion_sequence s other) x_root y_root d2 e2 hs]

/-- A move session on frame 2 anchored at pointer (400, 280) and position
(100, 80): after two earlier motions, or after none, the motion to (500, 380)
places the frame at (200, 180). -/
theorem motion_no_drift_witness :
    sample_moving.start_ev.window ≠ 0 ∧
    ((motion_sequence sample_moving ([(450, 300), (10, 900)] ++ [(500, 380)])).X.calls =
        (motion_sequence sample_moving [(450, 300), (10, 900)]).X.calls ++
          [XCall.XMoveWindow sample_moving.start_ev.window
            (sample_moving.drag_state.win_x + (500 - sample_moving.drag_state.start_root_x))
            (sample_moving.drag_state.win_y + (380 - sample_moving.drag_state.start_root_y))] ∧
      ∀ a, (motion_sequence sample_moving [(450, 300), (10, 900)]).X.attrs
          sample_moving.start_ev.window = some a →
        (motion_sequence sample_moving ([(450, 300), (10, 900)] ++ [(500, 380)])).X.attrs
            sample_moving.start_ev.window =
          some { a with
            x := sample_moving.drag_state.win_x + (500 - sample_moving.drag_state.start_root_x),
            y := sample_moving.drag_state.win_y +
              (380 - sample_moving.drag_state.start_root_y) }) ∧
    (motion_sequence sample_moving [(450, 300), (10, 900), (500, 380)]).X.calls.getLast? =
      some (XCall.XMoveWindow 2 200 180) ∧
    (motion_sequence sample_moving [(500, 380)]).X.calls.getLast? =
      some (XCall.XMoveWindow 2 200 180) ∧
    (motion_sequence sample_moving [(450, 300), (10, 900), (500, 380)]).drag_state =
      sample_moving.drag_state :=
  ⟨by decide,
   (motion_no_drift sample_moving [(450, 300), (10, 900)] [] 500 380 (by decide)).2.2.1
     (by decide),
   by decide, by decide, by decide⟩

theorem update_client_list_attrs (s : WM) : (update_client_list s).X.attrs = s.X.attrs := by
  unfold update_client_list
  split <;> rfl

/-- C22 (amended): for every framable client with requested size (w, h)
(a window `frame_window` takes on, with a frame id that is not an existing
window), the size (w', h') that `frame_window` gives the client is (w, h)
when both w >= 60 and h >= 60, and the default (800, 500) when w < 60 or
h < 60, whatever the other dimension is; so w' >= w and h' >= h hold whenever
w <= 800 and h <= 500. -/
theorem frame_window_client_size (s : WM) (client : Window) (a : XWindowAttributes)
    (hc : client ≠ 0) (ha : s.X.attrs client = some a) (hor : a.override_redirect = 0)
    (hsf : should_frame s client = true) (hfresh : s.X.attrs s.X.next_id = none) :
    ∃ a2, (frame_window s client).X.attrs client = some a2 ∧
      (60 ≤ a.width ∧ 60 ≤ a.height → a2.width = a.width ∧ a2.height = a.height) ∧
      (a.width < 60 ∨ a.height < 60 → a2.width = 800 ∧ a2.height = 500) ∧
      (a.width ≤ 800 → a.height ≤ 500 → a.width ≤ a2.width ∧ a.height ≤ a2.height) := by
  have hne : client ≠ s.X.next_id := by
    intro h
    rw [← h, ha] at hfresh
    exact absurd hfresh (by simp)
  by_cases hu : (decide (a.width < MIN_SIZE) || decide (a.height < MIN_SIZE)) = true
  · have hsmall : a.width < 60 ∨ a.height < 60 := by
      simpa [MIN_SIZE] using hu
    have e : (frame_window s client).X.attrs client =
        some { a with width := 800, height := 500 } := by
      unfold frame_window
      rw [if_neg hc]
      simp only [ha, hor, hsf, hu]
      simp only [ne_eq, not_true_eq_false, if_false, if_true, Bool.true_eq_false,
        update_client_list_attrs]
      simp [XCreateSimpleWindow, XResizeWindow, XServer.issue, XServer.configure, hne, ha,
        hor, DEFAULT_WINDOW_WIDTH, DEFAULT_WINDOW_HEIGHT]
    refine ⟨_, e, ?_, fun _ => ⟨rfl, rfl⟩, fun h1 h2 => ⟨h1, h2⟩⟩
    intro h
    omega
  · have hbig : 60 ≤ a.width ∧ 60 ≤ a.height := by
      simp only [MIN_SIZE, Bool.or_eq_true, decide_eq_true_eq, not_or, not_lt] at hu
      exact hu
    have e : (frame_window s client).X.attrs client = some a := by
      unfold frame_window
      rw [if_neg hc]
      simp only [ha, hor, hsf, hu]
      simp only [ne_eq, not_true_eq_false, if_false, Bool.true_eq_false, Bool.false_eq_true,
        update_client_list_attrs]
      simp [XCreateSimpleWindow, XServer.issue, hne, ha]
    refine ⟨a, e, fun _ => ⟨rfl, rfl⟩, ?_, fun _ _ => ⟨le_refl _, le_refl _⟩⟩
    intro h
    omega

theorem frame_window_client_size_witness :
    (∃ a2, (frame_window sample_wm 3).X.attrs 3 = some a2 ∧
      (60 ≤ (40 : Int) ∧ 60 ≤ (40 : Int) → a2.width = 40 ∧ a2.height = 40) ∧
      ((40 : Int) < 60 ∨ (40 : Int) < 60 → a2.width = 800 ∧ a2.height = 500) ∧
      ((40 : Int) ≤ 800 → (40 : Int) ≤ 500 → 40 ≤ a2.width ∧ 40 ≤ a2.height)) ∧
    ((frame_window sample_wm 3).X.attrs 3).map (fun a => (a.width, a.height)) =
      some (800, 500) ∧
    ((frame_window sample_wm 1).X.attrs 1).map (fun a => (a.width, a.height)) =
      some (640, 454) :=
  ⟨frame_window_client_size sample_wm 3
     { x := 0, y := 0, width := 40, height := 40, override_redirect := 0, map_state := 0 }
     (by decide) (by decide) (by decide) (by decide) (by decide),
   by decide, by decide⟩

/-- C22 (as stated) fails for a wide and short request: window 3 asks for
2000x40; its height is below 60, so `frame_window` replaces both dimensions by
the default and resizes the client to 800x500, and the width it is given, 800,
is less than the 2000 it asked for. -/
theorem frame_window_shrinks_width_counterexample :
    (sample_wm_wide.X.attrs 3).map (fun a => (a.width, a.height)) = some (2000, 40) ∧
    should_frame sample_wm_wide 3 = true ∧
    XCall.XResizeWindow 3 800 500 ∈ (frame_window sample_wm_wide 3).X.calls ∧
    ((frame_window sample_wm_wide 3).X.attrs 3).map (fun a => (a.width, a.height)) =
      some (800, 500) ∧
    ¬ ((2000 : Int) ≤ 800) := by
  decide

/-! ## Fullscreen guard and the session target -/

/-- C10 (code at the failing input): client 1 is fullscreen in frame 2.  A
modifier + button-3 press delivered to the root with frame 2 as `subwindow`
resolves no parent frame (`parent_frame` is 0), so the guard `is_fs` stays 0;
the target is then taken from `subwindow`, and the handler starts a resize
session on the fullscreen frame 2 and grabs the pointer; the next motion
event resizes that frame.  The same press delivered to client 1 resolves
frame 2, the guard is 1, and no session starts. -/
theorem fullscreen_guard_misses_subwindow_target :
    (get_frame (toggle_fullscreen sample_wm 1).reg 1 = 2 ∧
      ((toggle_fullscreen sample_wm 1).reg.clients 0).is_fullscreen = 1 ∧
      (toggle_fullscreen sample_wm 1).start_ev.window = 0) ∧
    (resolve_frame (toggle_fullscreen sample_wm 1) sample_press_root = 0 ∧
      press_is_fs (toggle_fullscreen sample_wm 1) sample_press_root = 0 ∧
      (main_ButtonPress (toggle_fullscreen sample_wm 1) sample_press_root
        XWindowAttributes.zero XWindowAttributes.zero).start_ev.window = 2 ∧
      (main_ButtonPress (toggle_fullscreen sample_wm 1) sample_press_root
        XWindowAttributes.zero XWindowAttributes.zero).start_ev.button = Button3 ∧
      (main_ButtonPress (toggle_fullscreen sample_wm 1) sample_press_root
        XWindowAttributes.zero XWindowAttributes.zero).drag_state =
        { start_root_x := 700, start_root_y := 500, win_x := 0, win_y := 0,
          win_w := 1920, win_h := 1080, resize_x_dir := -1, resize_y_dir := -1 } ∧
      (main_ButtonPress (toggle_fullscreen sample_wm 1) sample_press_root
        XWindowAttributes.zero XWindowAttributes.zero).X.calls.drop
          (toggle_fullscreen sample_wm 1).X.calls.length =
        [XCall.XAllowEvents AllowMode.AsyncPointer, XCall.XGrabPointer 50,
         XCall.XRaiseWindow 2] ∧
      ((main_MotionNotify
          (main_ButtonPress (toggle_fullscreen sample_wm 1) sample_press_root
            XWindowAttributes.zero XWindowAttributes.zero) 800 600).X.attrs 2).map
          (fun a => (a.x, a.y, a.width, a.height)) = some (100, 100, 1820, 980)) ∧
    (resolve_frame (toggle_fullscreen sample_wm 1) sample_press_resize = 2 ∧
      press_is_fs (toggle_fullscreen sample_wm 1) sample_press_resize = 1 ∧
      (main_ButtonPress (toggle_fullscreen sample_wm 1) sample_press_resize
        XWindowAttributes.zero XWindowAttributes.zero).start_ev.window = 0 ∧
      XCall.XGrabPointer 50 ∉
        (main_ButtonPress (toggle_fullscreen sample_wm 1) sample_press_resize
          XWindowAttributes.zero XWindowAttributes.zero).X.calls) := by
  decide
end Lwm
